import Mathlib

/-!
# Verification of the servo Fetch core (`components/net/fetch/methods.rs`)

This file gives a shallow embedding of the WHATWG-Fetch orchestrator of the
repository: the data model (URLs, headers, requests, responses), the helper
predicates, the CORS check, the CORS preflight, the header-synthesis step of
`http_network_or_cache_fetch`, and the mutually recursive algorithms
`main_fetch` / `basic_fetch` / `http_fetch` / `http_redirect_fetch`
(realised as one fuel-indexed step function, `fetch_engine`).

Conventions of the embedding:
* Machine strings stay `String`; byte buffers are `List Nat`.
* Rust panics (`panic!`, `unimplemented!`, `unreachable!`, `unwrap` on `None`,
  failed `assert!`) are modelled by `Option`: a panicking execution is `none`.
  Running out of fuel is also `none`; theorems state sufficient fuel.
* Interior mutability of the shared `Rc<Request>` is modelled by threading the
  request value through every algorithm and returning the updated value.
* External collaborators (the HTTP connector `obtain_response`, the data-URL
  decoder, the filesystem, URL joining of the `url` crate) are oracles, fields
  of an `Oracles` record quantified over in the theorems.
* Types living in `net_traits` / `fetch/cors_cache.rs` (the `Request` and
  `Response` constructors, `to_filtered`, the CORS cache) are not under `src/`;
  they are modelled from the spec, and say so in their doc comments.
* The Lean keyword for opacity cannot be used as a name, so the source's
  "Opaque" constructors are spelled `opaq` here.
-/

/-- HTTP methods, after `hyper::method::Method`. -/
inductive Method where
  | options
  | get
  | post
  | head
  | put
  | delete
  | trace
  | connect
  | patch
  | extensionMethod (s : String)
deriving DecidableEq, Repr

/-- A MIME type, after `hyper::mime::Mime` (top level, sub level, parameters). -/
structure Mime where
  top : String
  sub : String
  params : List (String × String)
deriving DecidableEq, Repr

/-- The parsed value of an `Access-Control-Allow-Origin` header, after
`hyper::header::AccessControlAllowOrigin` (`Any` = `*`, `Null`, or a single
explicit origin string). -/
inductive AllowOrigin where
  | any
  | null
  | value (origin : String)
deriving DecidableEq, Repr

/-- Cache directives, after `hyper::header::CacheDirective` (only the ones the
source constructs). -/
inductive CacheDirective where
  | noCacheDirective
  | maxAge (seconds : Nat)
  | otherDirective (s : String)
deriving DecidableEq, Repr

/-- One header entry.  Typed constructors model hyper headers that parsed; the
`raw` constructor models a header whose name is present but whose value does
not parse as the typed header (`Headers::has` sees it, `Headers::get` does
not). -/
inductive Header where
  | accept (v : String)
  | acceptLanguage (v : String)
  | contentLanguage (v : String)
  | contentType (m : Mime)
  | location (v : String)
  | allowOrigin (v : AllowOrigin)
  | allowCredentials
  | allowMethods (ms : List Method)
  | allowHeaders (names : List String)
  | maxAge (seconds : Nat)
  | contentLength (n : Nat)
  | refererHeader (v : String)
  | userAgent (v : String)
  | cacheControl (ds : List CacheDirective)
  | pragmaHeader
  | ifModifiedSince
  | ifNoneMatch
  | ifUnmodifiedSince
  | ifMatch
  | ifRange
  | authorization (username : String) (password : Option String)
  | requestMethodHeader (m : Method)
  | requestHeadersHeader (names : List String)
  | raw (name : String) (v : String)
deriving DecidableEq, Repr

/-- The canonical (lower-case) wire name of a header entry; hyper compares
header names case-insensitively, so `raw` names are lowered. -/
def Header.name : Header → String
  | .accept _ => "accept"
  | .acceptLanguage _ => "accept-language"
  | .contentLanguage _ => "content-language"
  | .contentType _ => "content-type"
  | .location _ => "location"
  | .allowOrigin _ => "access-control-allow-origin"
  | .allowCredentials => "access-control-allow-credentials"
  | .allowMethods _ => "access-control-allow-methods"
  | .allowHeaders _ => "access-control-allow-headers"
  | .maxAge _ => "access-control-max-age"
  | .contentLength _ => "content-length"
  | .refererHeader _ => "referer"
  | .userAgent _ => "user-agent"
  | .cacheControl _ => "cache-control"
  | .pragmaHeader => "pragma"
  | .ifModifiedSince => "if-modified-since"
  | .ifNoneMatch => "if-none-match"
  | .ifUnmodifiedSince => "if-unmodified-since"
  | .ifMatch => "if-match"
  | .ifRange => "if-range"
  | .authorization _ _ => "authorization"
  | .requestMethodHeader _ => "access-control-request-method"
  | .requestHeadersHeader _ => "access-control-request-headers"
  | .raw n _ => n.toLower

/-- A header map, after `hyper::header::Headers`: at most one entry per name;
`set` replaces. -/
def Headers := List Header
deriving DecidableEq, Repr

instance : Membership Header Headers := inferInstanceAs (Membership Header (List Header))

/-- `Headers::has::<H>()`: is a header of this wire name present. -/
def Headers.hasName (hs : Headers) (n : String) : Bool :=
  List.any hs (fun h => h.name = n)

/-- The first entry of a given wire name (hyper keeps one entry per name). -/
def Headers.findName (hs : Headers) (n : String) : Option Header :=
  List.find? (fun h => h.name = n) hs

/-- `Headers::set`: replace any entry of the same name. -/
def Headers.set (hs : Headers) (h : Header) : Headers :=
  List.filter (fun h' => h'.name ≠ h.name) hs ++ [h]

/-- `headers.get::<Location>()`; `none` both when absent and when unparseable. -/
def Headers.getLocation (hs : Headers) : Option String :=
  match hs.findName "location" with
  | some (.location v) => some v
  | _ => none

/-- `headers.get::<AccessControlAllowOrigin>()`. -/
def Headers.getAllowOrigin (hs : Headers) : Option AllowOrigin :=
  match hs.findName "access-control-allow-origin" with
  | some (.allowOrigin v) => some v
  | _ => none

/-- `headers.get::<AccessControlAllowCredentials>()` (unit-valued header). -/
def Headers.getAllowCredentials (hs : Headers) : Option Unit :=
  match hs.findName "access-control-allow-credentials" with
  | some .allowCredentials => some ()
  | _ => none

/-- `headers.get::<AccessControlAllowMethods>()`. -/
def Headers.getAllowMethods (hs : Headers) : Option (List Method) :=
  match hs.findName "access-control-allow-methods" with
  | some (.allowMethods ms) => some ms
  | _ => none

/-- `headers.get::<AccessControlAllowHeaders>()`. -/
def Headers.getAllowHeaders (hs : Headers) : Option (List String) :=
  match hs.findName "access-control-allow-headers" with
  | some (.allowHeaders ns) => some ns
  | _ => none

/-- `headers.get::<AccessControlMaxAge>()`. -/
def Headers.getMaxAge (hs : Headers) : Option Nat :=
  match hs.findName "access-control-max-age" with
  | some (.maxAge n) => some n
  | _ => none

/-- The value of a `Content-Type` entry when it parses (`HeaderView::value`). -/
def Header.contentTypeValue : Header → Option Mime
  | .contentType m => some m
  | _ => none

/-- An origin of the `url` crate (`url::Origin`): an (scheme, host, port)
tuple, or an opaque origin with a freshness id. -/
inductive UrlOrigin where
  | tupleOrigin (scheme host : String) (port : Nat)
  | opaqOrigin (id : Nat)
deriving DecidableEq, Repr

/-- `url::Origin::ascii_serialization`; opaque origins serialize as "null". -/
def UrlOrigin.ascii_serialization : UrlOrigin → String
  | .tupleOrigin s h p => s ++ "://" ++ h ++ ":" ++ toString p
  | .opaqOrigin _ => "null"

/-- An absolute URL of the `url` crate, reduced to the components the fetch
core inspects. -/
structure Url where
  scheme : String
  username : String
  password : Option String
  host : String
  port : Nat
  path : String
deriving DecidableEq, Repr

/-- `Url::origin()`. -/
def Url.origin (u : Url) : UrlOrigin := UrlOrigin.tupleOrigin u.scheme u.host u.port

/-- `Url::to_string()` (serialization used for the `Referer` header). -/
def Url.serialize (u : Url) : String :=
  u.scheme ++ "://" ++ u.host ++ ":" ++ toString u.port ++ "/" ++ u.path

/-- `Origin` of a request (`net_traits::request::Origin`): the client
placeholder or a concrete origin. -/
inductive RequestOrigin where
  | client
  | origin (o : UrlOrigin)
deriving DecidableEq, Repr

/-- `net_traits::request::Referer`. -/
inductive Referer where
  | noReferer
  | refererClient
  | refererUrl (u : Url)
deriving DecidableEq, Repr

/-- `net_traits::request::RequestMode`. -/
inductive RequestMode where
  | sameOriginMode
  | noCORS
  | corsMode
  | navigate
deriving DecidableEq, Repr

/-- `net_traits::request::CredentialsMode`. -/
inductive CredentialsMode where
  | credentialsOmit
  | credentialsSameOrigin
  | credentialsInclude
deriving DecidableEq, Repr

/-- `net_traits::request::CacheMode`. -/
inductive CacheMode where
  | defaultMode
  | noStore
  | reload
  | noCache
  | forceCache
  | onlyIfCached
deriving DecidableEq, Repr

/-- `net_traits::request::RedirectMode`. -/
inductive RedirectMode where
  | follow
  | redirectError
  | manual
deriving DecidableEq, Repr

/-- `net_traits::request::ResponseTainting` (the source's `Opaque` is spelled
`opaqTainting`). -/
inductive ResponseTainting where
  | basicTainting
  | corsTainting
  | opaqTainting
deriving DecidableEq, Repr

/-- `net_traits::request::Type` (request type; only informs the default
`Accept` header at the entry point). -/
inductive ReqType where
  | typeNone
  | image
  | style
  | script
  | otherType
deriving DecidableEq, Repr

/-- `net_traits::request::Destination` (opaque to the core). -/
inductive ReqDestination where
  | destNone
  | otherDest
deriving DecidableEq, Repr

/-- `net_traits::request::Initiator` (opaque to the core). -/
inductive ReqInitiator where
  | initNone
  | otherInit
deriving DecidableEq, Repr

/-- `net_traits::request::Window`. -/
inductive WindowField where
  | noWindow
  | windowClient
deriving DecidableEq, Repr

/-- A fetch request (`net_traits::request::Request`).  The non-empty url list
is modelled as a head `url` plus the tail `url_list_rest`, so the current URL
is total. -/
structure Request where
  method : Method
  url : Url
  url_list_rest : List Url
  headers : Headers
  unsafe_request : Bool
  body : Option (List Nat)
  origin : RequestOrigin
  referer : Referer
  mode : RequestMode
  use_cors_preflight : Bool
  credentials_mode : CredentialsMode
  use_url_credentials : Bool
  cache_mode : CacheMode
  redirect_mode : RedirectMode
  redirect_count : Nat
  response_tainting : ResponseTainting
  same_origin_data : Bool
  local_urls_only : Bool
  skip_service_worker : Bool
  is_service_worker_global_scope : Bool
  synchronous : Bool
  omit_origin_header : Bool
  type_ : ReqType
  destination : ReqDestination
  initiator : ReqInitiator
  window : WindowField
deriving DecidableEq, Repr

/-- `request.url_list` (always non-empty). -/
def Request.url_list (r : Request) : List Url := r.url :: r.url_list_rest

/-- `Request::current_url`: the last element of the url list. -/
def Request.current_url (r : Request) : Url := r.url_list_rest.getLastD r.url

/-- Modelled from the spec: the `Request` constructor lives in `net_traits`
(not under `src/`).  Spec §6: it accepts a URL, an optional origin and
`is_service_worker_global_scope`; "All other fields have defaults per the
Fetch spec" (method GET, empty headers, no body, referer "client", mode
no-CORS, credentials omit, cache default, redirect follow, tainting basic,
all flags false, redirect count 0). -/
def Request.new (url : Url) (origin : Option RequestOrigin)
    (is_service_worker_global_scope : Bool) : Request :=
  { method := Method.get
    url := url
    url_list_rest := []
    headers := ([] : List Header)
    unsafe_request := false
    body := none
    origin := origin.getD RequestOrigin.client
    referer := Referer.refererClient
    mode := RequestMode.noCORS
    use_cors_preflight := false
    credentials_mode := CredentialsMode.credentialsOmit
    use_url_credentials := false
    cache_mode := CacheMode.defaultMode
    redirect_mode := RedirectMode.follow
    redirect_count := 0
    response_tainting := ResponseTainting.basicTainting
    same_origin_data := false
    local_urls_only := false
    skip_service_worker := false
    is_service_worker_global_scope := is_service_worker_global_scope
    synchronous := false
    omit_origin_header := false
    type_ := ReqType.typeNone
    destination := ReqDestination.destNone
    initiator := ReqInitiator.initNone
    window := WindowField.windowClient }

/-- `net_traits::response::ResponseType` (the source's `Opaque` and
`OpaqueRedirect` are spelled `opaqType` / `opaqRedirect`). -/
inductive ResponseType where
  | basicType
  | corsType
  | defaultType
  | errorType
  | opaqType
  | opaqRedirect
deriving DecidableEq, Repr

/-- `net_traits::response::TerminationReason`. -/
inductive TerminationReason where
  | fatal
deriving DecidableEq, Repr

/-- `net_traits::response::ResponseBody`. -/
inductive ResponseBody where
  | empty
  | receiving (buf : List Nat)
  | done (bytes : List Nat)
deriving DecidableEq, Repr

/-- The flat part of a response (everything except the `internal_response`
slot). -/
structure CoreResponse where
  response_type : ResponseType
  termination_reason : Option TerminationReason
  url : Option Url
  url_list : List Url
  status : Option Nat
  headers : Headers
  body : ResponseBody
deriving DecidableEq, Repr

/-- A response (`net_traits::response::Response`).  The `internal_response`
slot holds the unfiltered response when a filter was applied; filters are
applied to unfiltered responses only, so one level of nesting suffices. -/
structure Response where
  core : CoreResponse
  internal_response : Option CoreResponse
  return_internal : Bool
deriving DecidableEq, Repr

/-- Modelled from the spec: `Response::new` lives in `net_traits` (not under
`src/`).  Spec §4.1 scenario 1 fixes its defaults: `basic_fetch` answers
`about:blank` with `Response::new()` plus a content type and an empty body and
the spec calls that a synthetic 200, so a fresh response carries status 200,
type Default, no termination, no url, empty headers and an Empty body. -/
def Response.new : Response :=
  { core := { response_type := ResponseType.defaultType
              termination_reason := none
              url := none
              url_list := []
              status := some 200
              headers := ([] : List Header)
              body := ResponseBody.empty }
    internal_response := none
    return_internal := true }

/-- Modelled from the spec: `Response::network_error` lives in `net_traits`.
Spec §3/§7: the network error is a sentinel response with
`response_type = Error` and nothing else (no status, no headers, no body). -/
def Response.network_error : Response :=
  { core := { response_type := ResponseType.errorType
              termination_reason := none
              url := none
              url_list := []
              status := none
              headers := ([] : List Header)
              body := ResponseBody.empty }
    internal_response := none
    return_internal := true }

/-- `Response::is_network_error` (checks the outer response type). -/
def Response.is_network_error (r : Response) : Bool :=
  r.core.response_type = ResponseType.errorType

/-- `Response::actual_response`: the internal response when a filter was
applied and `return_internal` is set, otherwise the response itself. -/
def Response.actual (r : Response) : CoreResponse :=
  if r.return_internal ∧ r.internal_response.isSome then
    r.internal_response.getD r.core
  else
    r.core

/-- Modelled from the spec: `Response::to_filtered` lives in `net_traits`.
Spec §6: it "produces a wrapper that hides headers/body per `type` but
preserves `internal_response` for algorithmic use"; opaque wrappers hide
status, headers and body, opaque-redirect wrappers hide headers and body,
basic/CORS wrappers keep the payload visible. -/
def Response.to_filtered (r : Response) (t : ResponseType) : Response :=
  let inner := r.actual
  match t with
  | ResponseType.opaqType =>
      { core := { inner with
                  response_type := t
                  headers := ([] : List Header)
                  status := none
                  body := ResponseBody.empty
                  url := none
                  url_list := [] }
        internal_response := some inner
        return_internal := true }
  | ResponseType.opaqRedirect =>
      { core := { inner with
                  response_type := t
                  headers := ([] : List Header)
                  body := ResponseBody.empty }
        internal_response := some inner
        return_internal := true }
  | _ =>
      { core := { inner with response_type := t }
        internal_response := some inner
        return_internal := true }

/-- Write `b` through `actual_response` into the body slot (the mutation of
step 14 of `main_fetch`). -/
def Response.set_actual_body (r : Response) (b : ResponseBody) : Response :=
  if r.return_internal ∧ r.internal_response.isSome then
    { r with internal_response := r.internal_response.map (fun c => { c with body := b }) }
  else
    { r with core := { r.core with body := b } }

/- ### Helpers (§4.7 of the spec; lines 1098-1154 of the source) -/

/-- `global_user_agent` (line 1098). -/
def global_user_agent : String := "Servo"

/-- `has_credentials` (line 1104): non-empty username or any password. -/
def has_credentials (url : Url) : Bool :=
  !url.username.isEmpty || url.password.isSome

/-- `is_no_store_cache` (line 1108): any conditional header present. -/
def is_no_store_cache (headers : Headers) : Bool :=
  headers.hasName "if-modified-since" || headers.hasName "if-none-match" ||
  headers.hasName "if-unmodified-since" || headers.hasName "if-match" ||
  headers.hasName "if-range"

/-- Mime values `is_simple_header` accepts for `Content-Type`. -/
def is_simple_mime (m : Mime) : Bool :=
  match m.top, m.sub with
  | "text", "plain" => true
  | "application", "x-www-form-urlencoded" => true
  | "multipart", "form-data" => true
  | _, _ => false

/-- `is_simple_header` (line 1114).  hyper's `HeaderView::is::<H>` compares
names, and `value()` re-parses, so a `raw` entry named like a simple header is
simple for Accept/Accept-Language/Content-Language but a raw `Content-Type`
(whose value does not parse) is not. -/
def is_simple_header (h : Header) : Bool :=
  if h.name = "content-type" then
    match h.contentTypeValue with
    | some m => is_simple_mime m
    | none => false
  else
    h.name = "accept" || h.name = "accept-language" || h.name = "content-language"

/-- `is_simple_method` (line 1128): GET, HEAD, POST. -/
def is_simple_method (m : Method) : Bool :=
  match m with
  | Method.get => true
  | Method.head => true
  | Method.post => true
  | _ => false

/-- `response_needs_revalidation` (line 1135): a TODO stub returning false. -/
def response_needs_revalidation (_response : Response) : Bool := false

/-- `is_null_body_status` (line 1145): 101, 204, 205, 304. -/
def is_null_body_status (status : Option Nat) : Bool :=
  match status with
  | some 101 => true
  | some 204 => true
  | some 205 => true
  | some 304 => true
  | _ => false

/-- `StatusCode::is_success` of hyper: the 2xx class. -/
def status_is_success (status : Option Nat) : Bool :=
  match status with
  | some s => 200 ≤ s && s ≤ 299
  | none => false

/- ### External collaborators (spec §6) -/

/-- What `obtain_response` yields on success: the connected response's URL,
status, headers and the byte stream (here: the bytes it will deliver). -/
structure WireResponse where
  url : Url
  status : Nat
  headers : Headers
  bodyBytes : List Nat
deriving DecidableEq, Repr

/-- The external collaborators consumed by the fetch core, abstracted as
oracles: the HTTP connector, the data-URL decoder, the filesystem, MIME
guessing, URL joining of the `url` crate, and the clock used by the CORS
cache. -/
structure Oracles where
  connector : Url → Method → Headers → Except Unit WireResponse
  dataDecode : Url → Except Unit (Mime × List Nat)
  filePath : Url → Except Unit String
  fileOpenRead : String → Option (List Nat)
  guessMimeType : String → Mime
  joinUrl : Url → String → Except Unit Url
  now : Nat

/- ### CORS cache (spec §4.6; `fetch/cors_cache.rs` is not under `src/`) -/

/-- `CacheRequestDetails`: the cache key triple. -/
structure CacheRequestDetails where
  origin : RequestOrigin
  destination : Url
  credentials : Bool
deriving DecidableEq, Repr

/-- Modelled from the spec: the CORS cache of `fetch/cors_cache.rs` is not
under `src/`.  Spec §4.6: it maps `(origin, destination URL, credentials)` to
allowed methods and allowed header names, each entry with an expiry instant. -/
structure CORSCache where
  methodEntries : List (CacheRequestDetails × Method × Nat)
  headerEntries : List (CacheRequestDetails × String × Nat)
deriving DecidableEq, Repr

/-- Modelled from the spec: `CORSCache::new` — an empty cache. -/
def CORSCache.new : CORSCache := { methodEntries := [], headerEntries := [] }

/-- Modelled from the spec: `match_method(details, method)` honors expiry and
compares methods byte-exactly (§4.6). -/
def CORSCache.match_method (c : CORSCache) (now : Nat)
    (details : CacheRequestDetails) (m : Method) : Bool :=
  c.methodEntries.any (fun e => e.1 = details ∧ e.2.1 = m ∧ now < e.2.2)

/-- Modelled from the spec: `match_header(details, name)` honors expiry and
compares header names case-insensitively (§4.6). -/
def CORSCache.match_header (c : CORSCache) (now : Nat)
    (details : CacheRequestDetails) (name : String) : Bool :=
  c.headerEntries.any (fun e => e.1 = details ∧ e.2.1.toLower = name.toLower ∧ now < e.2.2)

/-- Modelled from the spec: `match_method_and_update`: upsert the entry and
refresh its expiry to `now + max_age` (§4.6). -/
def CORSCache.match_method_and_update (c : CORSCache) (now : Nat)
    (details : CacheRequestDetails) (m : Method) (max_age : Nat) : Bool × CORSCache :=
  (c.match_method now details m,
   { c with methodEntries :=
      (details, m, now + max_age) ::
        c.methodEntries.filter (fun e => ¬(e.1 = details ∧ e.2.1 = m)) })

/-- Modelled from the spec: `match_header_and_update`: upsert the entry and
refresh its expiry to `now + max_age` (§4.6). -/
def CORSCache.match_header_and_update (c : CORSCache) (now : Nat)
    (details : CacheRequestDetails) (name : String) (max_age : Nat) : Bool × CORSCache :=
  (c.match_header now details name,
   { c with headerEntries :=
      (details, name, now + max_age) ::
        c.headerEntries.filter (fun e => ¬(e.1 = details ∧ e.2.1.toLower = name.toLower)) })

/-- The mutable state threaded through the algorithms: the CORS cache and the
counter that makes `UrlOrigin::new_opaque()` fresh. -/
structure St where
  cache : CORSCache
  nextOpaque : Nat
deriving DecidableEq, Repr

/- ### CORS check (lines 1054-1096 of the source; spec §4.5) -/

/-- `cors_check(request, response)` (line 1055).  Steps 1-2 read
`Access-Control-Allow-Origin` from the response; step 3 passes a wildcard
when credentials are not included; step 4 compares a single explicit origin
with the request origin's ASCII serialization; steps 6-8 — exactly as the
source is written — read `Access-Control-Allow-Credentials` from the
REQUEST's headers (line 1087), not from the response's. -/
def cors_check (request : Request) (response : Response) : Except Unit Unit :=
  -- Step 1, 2
  match response.core.headers.getAllowOrigin with
  | none => Except.error ()
  | some origin =>
    -- Step 3
    if request.credentials_mode ≠ CredentialsMode.credentialsInclude ∧
       origin = AllowOrigin.any then Except.ok ()
    else
      -- Step 4
      match origin with
      | AllowOrigin.value originStr =>
        (match request.origin with
         | RequestOrigin.origin o =>
           if o.ascii_serialization = originStr then
             -- Step 5
             if request.credentials_mode ≠ CredentialsMode.credentialsInclude then Except.ok ()
             else
               -- Steps 6, 7, 8 (note: the source reads the request's headers)
               if (request.headers.getAllowCredentials).isSome then Except.ok ()
               else Except.error ()
           else Except.error ()
         | _ => Except.error ())
      | _ => Except.error ()

/- ### HTTP network fetch (lines 823-947 of the source) -/

/-- `http_network_fetch(request, http_request, credentials_flag)` (line 824).
The source submits `request`'s current URL, method and headers through
`obtain_response` (the `_http_request` argument is unused).  On success the
response takes the wire URL, status and headers, and the spawned reader
publishes the stream into the body (modelled at completion: `Done(bytes)`);
on failure `termination_reason` is set to Fatal.  Step 6 copies the request's
url list onto the response. -/
def http_network_fetch (o : Oracles) (request : Request) (_http_request : Request)
    (_credentials_flag : Bool) : Response :=
  let wrapped_response :=
    o.connector request.current_url request.method request.headers
  let response := Response.new
  let response :=
    match wrapped_response with
    | Except.ok res =>
        { response with core := { response.core with
            url := some res.url
            status := some res.status
            headers := res.headers
            body := ResponseBody.done res.bodyBytes } }
    | Except.error _ =>
        { response with core := { response.core with
            termination_reason := some TerminationReason.fatal } }
  -- Step 6
  { response with core := { response.core with url_list := request.url_list } }

/- ### HTTP network-or-cache fetch (lines 616-821 of the source) -/

/-- Steps 2-5 of `http_network_or_cache_fetch`: the `Content-Length` header.
Absent body: 0 for HEAD/POST/PUT; present body: its length. -/
def content_length_step (r : Request) : Request :=
  let content_length_value : Option Nat :=
    match r.body with
    | none =>
        (match r.method with
         | Method.head => some 0
         | Method.post => some 0
         | Method.put => some 0
         | _ => none)
    | some http_request_body => some http_request_body.length
  match content_length_value with
  | some v => { r with headers := r.headers.set (Header.contentLength v) }
  | none => r

/-- Step 6 of `http_network_or_cache_fetch`: the `Referer` header.  The
`Referer::Client` arm is `unreachable!()` in the source and is handled by the
caller (the whole algorithm returns `none` there). -/
def referer_step (r : Request) : Request :=
  match r.referer with
  | Referer.noReferer => { r with headers := r.headers.set (Header.refererHeader "") }
  | Referer.refererUrl u =>
      { r with headers := r.headers.set (Header.refererHeader u.serialize) }
  | Referer.refererClient => r

/-- Step 8 of `http_network_or_cache_fetch`: set `User-Agent` if absent. -/
def user_agent_step (r : Request) : Request :=
  if ¬r.headers.hasName "user-agent" then
    { r with headers := r.headers.set (Header.userAgent global_user_agent) }
  else r

/-- Steps 9-11 of `http_network_or_cache_fetch` (lines 673-699): cache-mode
normalization.  `Default` with a conditional header upgrades to `NoStore`;
`NoCache` without `Cache-Control` sets `Cache-Control: max-age=0`; `Reload`
sets `Pragma: no-cache` and `Cache-Control: no-cache` unless present. -/
def cache_mode_normalize (r : Request) : Request :=
  match r.cache_mode with
  | CacheMode.defaultMode =>
      if is_no_store_cache r.headers then
        { r with cache_mode := CacheMode.noStore }
      else r
  | CacheMode.noCache =>
      if ¬r.headers.hasName "cache-control" then
        { r with headers := r.headers.set (Header.cacheControl [CacheDirective.maxAge 0]) }
      else r
  | CacheMode.reload =>
      -- Substep 1
      let r := if ¬r.headers.hasName "pragma" then
                 { r with headers := r.headers.set Header.pragmaHeader }
               else r
      -- Substep 2
      if ¬r.headers.hasName "cache-control" then
        { r with headers := r.headers.set (Header.cacheControl [CacheDirective.noCacheDirective]) }
      else r
  | _ => r

/-- Step 13 of `http_network_or_cache_fetch`: when the credentials flag is set
and no `Authorization` header is present, an authentication fetch with
credentials in the current URL sets HTTP Basic authorization. -/
def authorization_step (r : Request) (authentication_fetch_flag : Bool) : Request :=
  if ¬r.headers.hasName "authorization" then
    let authorization_value : Option (String × Option String) :=
      if authentication_fetch_flag then
        (let current_url := r.current_url
         if has_credentials current_url then
           some (current_url.username, current_url.password)
         else none)
      else none
    match authorization_value with
    | some basic => { r with headers := r.headers.set (Header.authorization basic.1 basic.2) }
    | none => r
  else r

/-- `http_network_or_cache_fetch(request, credentials_flag,
authentication_fetch_flag)` (line 617).  Step 1 reuses the input request when
it has no window and `redirect_mode ≠ Follow` (so header mutations are shared
with the caller), and deep-clones it otherwise; steps 2-13 synthesize headers
on `http_request`; the HTTP cache of steps 15-17 and the 304 merge of step 19
are TODO stubs in the source, so the network is always consulted (step 18).
Returns the caller-visible request (the shared object when step 1 shared)
with the response; `none` models the `unreachable!()` of a `Referer::Client`
request. -/
def http_network_or_cache_fetch (o : Oracles) (request : Request)
    (credentials_flag : Bool) (authentication_fetch_flag : Bool) :
    Option (Request × Response) :=
  -- TODO in the source: Window enum; request_has_no_window is hard-coded true
  let request_has_no_window := true
  -- Step 1
  let shared := request_has_no_window ∧ request.redirect_mode ≠ RedirectMode.follow
  let http_request := request
  -- Steps 2-5
  let http_request := content_length_step http_request
  -- Step 6 (`Referer::Client` is `unreachable!()` in the source)
  if http_request.referer = Referer.refererClient then none
  else
    let http_request := referer_step http_request
    -- Step 7: origin header (TODO in the source)
    -- Step 8
    let http_request := user_agent_step http_request
    -- Steps 9-11
    let http_request := cache_mode_normalize http_request
    -- Step 12: `modify_request_headers` (commented out in the source)
    -- Step 13
    let http_request :=
      if credentials_flag then authorization_step http_request authentication_fetch_flag
      else http_request
    -- Steps 15-17: HTTP cache (TODO in the source; no cached response exists)
    -- Step 18
    let base_request := if shared then http_request else request
    let response := http_network_fetch o base_request http_request credentials_flag
    -- Step 19: 304 revalidation merge (TODO in the source)
    -- Step 20
    some (base_request, response)

/- ### CORS preflight fetch (lines 949-1052 of the source; spec §4.4) -/

/-- Insert into a ≤-sorted list of strings (helper for `value.sort()`). -/
def insert_sorted (s : String) : List String → List String
  | [] => [s]
  | x :: xs => if s ≤ x then s :: x :: xs else x :: insert_sorted s xs

/-- `value.sort()` of line 970 (names are already lower-cased by
`Header.name`, so plain lexicographic order realises `UniCase` order). -/
def string_sort : List String → List String
  | [] => []
  | x :: xs => insert_sorted x (string_sort xs)

/-- Steps 1-5 of `cors_preflight_fetch`: the preflight request — a fresh
request for the current URL with the triggering request's origin, initiator,
type, destination and referer; method OPTIONS;
`Access-Control-Request-Method` set to the triggering method and
`Access-Control-Request-Headers` to the sorted non-simple header names. -/
def preflight_request (request : Request) : Request :=
  -- Step 1
  let preflight := Request.new request.current_url (some request.origin) false
  let preflight := { preflight with
    method := Method.options
    initiator := request.initiator
    type_ := request.type_
    destination := request.destination
    referer := request.referer }
  -- Step 2
  let preflight := { preflight with
    headers := preflight.headers.set (Header.requestMethodHeader request.method) }
  -- Steps 3, 4
  let value := string_sort
    (request.headers.filterMap (fun v => if is_simple_header v then none else some v.name))
  -- Step 5
  { preflight with
    headers := preflight.headers.set (Header.requestHeadersHeader value) }

/-- Substep 1 of step 7 of `cors_preflight_fetch` (lines 984-992): the parse
of `Access-Control-Allow-Methods`.  `none` is the `return network_error` of
substep 3 (the header name is present but its value did not parse); an
entirely absent header yields the empty list. -/
def parse_allow_methods (headers : Headers) : Option (List Method) :=
  if headers.hasName "access-control-allow-methods" then
    headers.getAllowMethods
  else some []

/-- Substep 2 of step 7 of `cors_preflight_fetch` (lines 995-1003): the parse
of `Access-Control-Allow-Headers`, analogous to `parse_allow_methods`. -/
def parse_allow_header_names (headers : Headers) : Option (List String) :=
  if headers.hasName "access-control-allow-headers" then
    headers.getAllowHeaders
  else some []

/-- Substeps 11-14 of step 7 of `cors_preflight_fetch`: insert one cache entry
per allowed method and per allowed header name with expiry `now + max_age`. -/
def preflight_cache_update (o : Oracles) (request : Request) (st : St)
    (methods : List Method) (header_names : List String) (max_age : Nat) : St :=
  let details : CacheRequestDetails :=
    { origin := request.origin
      destination := request.current_url
      credentials := request.credentials_mode = CredentialsMode.credentialsInclude }
  let st := methods.foldl
    (fun st m =>
      { st with cache := (st.cache.match_method_and_update o.now details m max_age).2 }) st
  header_names.foldl
    (fun st name =>
      { st with cache := (st.cache.match_header_and_update o.now details name max_age).2 }) st

/-- `cors_preflight_fetch(request, cache)` (line 950).  Builds the preflight,
dispatches it through `http_network_or_cache_fetch(credentials=false,
auth=false)`, and on a 2xx response passing `cors_check` parses the
allow-methods / allow-headers lists (substeps 1-3), adds the triggering
method when the list is empty and `use_cors_preflight` is set (substep 4),
rejects a non-simple method not in the list (substep 5) or a non-simple
request header not in the allowed set, case-insensitively (substep 6), and
otherwise updates the cache (substeps 7-14) and returns the preflight
response (substep 15).  Every other outcome is a network error (step 8). -/
def cors_preflight_fetch (o : Oracles) (request : Request) (st : St) :
    Option (St × Response) :=
  -- Steps 1-5
  let preflight := preflight_request request
  -- Step 6
  match http_network_or_cache_fetch o preflight false false with
  | none => none
  | some (_, response) =>
    -- Step 7
    if (cors_check request response).isOk ∧
       status_is_success response.core.status then
      -- Substeps 1, 3
      match parse_allow_methods response.core.headers with
      | none => some (st, Response.network_error)
      | some methods0 =>
        -- Substeps 2, 3
        match parse_allow_header_names response.core.headers with
        | none => some (st, Response.network_error)
        | some header_names =>
          -- Substep 4
          let methods :=
            if methods0.isEmpty ∧ request.use_cors_preflight then [request.method]
            else methods0
          -- Substep 5
          if methods.all (fun m => m ≠ request.method) ∧
             ¬is_simple_method request.method then
            some (st, Response.network_error)
          -- Substep 6
          else if request.headers.any (fun hv =>
              !(header_names.any (fun n => n.toLower = hv.name.toLower)) &&
              !is_simple_header hv) then
            some (st, Response.network_error)
          else
            -- Substeps 7, 8
            let max_age := (response.core.headers.getMaxAge).getD 0
            -- Substeps 11-14
            let st := preflight_cache_update o request st methods header_names max_age
            -- Substep 15
            some (st, response)
    else
      -- Step 8
      some (st, Response.network_error)

/- ### The four mutually recursive fetch algorithms (lines 115-614) -/

/-- Step 11 of `main_fetch` (lines 203-214): wrap a Default response via
`to_filtered`, mapping the request's tainting to the response type. -/
def main_fetch_filter (request : Request) (response : Response) : Response :=
  if response.core.response_type = ResponseType.defaultType then
    response.to_filtered
      (match request.response_tainting with
       | ResponseTainting.basicTainting => ResponseType.basicType
       | ResponseTainting.corsTainting => ResponseType.corsType
       | ResponseTainting.opaqTainting => ResponseType.opaqType)
  else response

/-- Steps 12-14 of `main_fetch` (lines 216-238): when the response is not a
network error and the internal response carries a null-body status or the
request's method is HEAD or CONNECT, the internal body is forced to Empty.
(For a network error the source mutates a throwaway sentinel, a no-op.) -/
def main_fetch_nullbody (request : Request) (response : Response) : Response :=
  if ¬response.is_network_error ∧
     (is_null_body_status response.actual.status ∨
      request.method = Method.head ∨ request.method = Method.connect) then
    response.set_actual_body ResponseBody.empty
  else response

/-- A pending invocation of one of the four mutually recursive algorithms. -/
inductive FetchCall where
  | mainCall (request : Request) (st : St) (cors_flag recursive_flag : Bool)
  | basicCall (request : Request) (st : St)
  | httpCall (request : Request) (st : St)
      (cors_flag cors_preflight_flag authentication_fetch_flag : Bool)
  | redirectCall (request : Request) (st : St) (response : Response) (cors_flag : Bool)

/-- The mutually recursive block `main_fetch` / `basic_fetch` / `http_fetch` /
`http_redirect_fetch` (lines 115-614), as one fuel-indexed function; each
mutual call spends one unit of fuel, and running out of fuel is `none` (the
401/407 retry loop of `http_fetch` need not terminate).  Each branch is a
line-by-line translation of the corresponding source function; the four
named wrappers below restore the source names. -/
def fetch_engine (o : Oracles) : Nat → FetchCall → Option (Request × St × Response)
  | 0, _ => none
  | Nat.succ f, FetchCall.mainCall req st cors_flag recursive_flag =>
    -- Step 1, Step 2
    let response0 : Option Response :=
      if req.local_urls_only ∧
         ¬(req.current_url.scheme = "about" ∨ req.current_url.scheme = "blob" ∨
           req.current_url.scheme = "data" ∨ req.current_url.scheme = "filesystem") then
        some Response.network_error
      else none
    -- Steps 3-8: CSP, header hooks and referer determination are TODO stubs
    -- Step 9
    let step9 : Option (Request × St × Response) :=
      match response0 with
      | some response => some (req, st, response)
      | none =>
        let current_url := req.current_url
        let same_origin : Bool :=
          match req.origin with
          | RequestOrigin.origin origin => decide (origin = current_url.origin)
          | _ => false
        if (same_origin ∧ ¬cors_flag) ∨
           (current_url.scheme = "data" ∧ req.same_origin_data) ∨
           (current_url.scheme = "file" ∧ req.same_origin_data) ∨
           current_url.scheme = "about" ∨
           req.mode = RequestMode.navigate then
          fetch_engine o f (FetchCall.basicCall req st)
        else if req.mode = RequestMode.sameOriginMode then
          some (req, st, Response.network_error)
        else if req.mode = RequestMode.noCORS then
          let req := { req with response_tainting := ResponseTainting.opaqTainting }
          fetch_engine o f (FetchCall.basicCall req st)
        else if ¬(current_url.scheme = "http" ∨ current_url.scheme = "https") then
          some (req, st, Response.network_error)
        else if req.use_cors_preflight ∨
                (req.unsafe_request ∧
                 (¬is_simple_method req.method ∨
                  req.headers.any (fun h => !is_simple_header h))) then
          let req := { req with response_tainting := ResponseTainting.corsTainting,
                                redirect_mode := RedirectMode.redirectError }
          -- (clearing cache entries on a network error is a TODO in the source)
          fetch_engine o f (FetchCall.httpCall req st true true false)
        else
          let req := { req with response_tainting := ResponseTainting.corsTainting }
          fetch_engine o f (FetchCall.httpCall req st true false false)
    (match step9 with
     | none => none
     | some out =>
       let req1 := out.1
       let st1 := out.2.1
       let response := out.2.2
       -- Step 10
       if recursive_flag then some (req1, st1, response)
       else
         -- Step 11
         let response := main_fetch_filter req1 response
         -- Steps 12-14
         let response := main_fetch_nullbody req1 response
         -- Steps 15-20: integrity metadata is commented out in the source and
         -- the body waits are no-ops here (bodies are already final)
         some (req1, st1, response))
  | Nat.succ f, FetchCall.basicCall req st =>
    let url := req.current_url
    if url.scheme = "about" ∧ url.path = "blank" then
      let response := Response.new
      let response := { response with core := { response.core with
          headers := response.core.headers.set
            (Header.contentType ⟨"text", "html", [("charset", "utf-8")]⟩)
          body := ResponseBody.done [] } }
      some (req, st, response)
    else if url.scheme = "http" ∨ url.scheme = "https" then
      fetch_engine o f (FetchCall.httpCall req st false false false)
    else if url.scheme = "data" then
      (if req.method = Method.get then
        match o.dataDecode url with
        | Except.ok mb =>
            let response := Response.new
            let response := { response with core := { response.core with
                body := ResponseBody.done mb.2
                headers := response.core.headers.set (Header.contentType mb.1) } }
            some (req, st, response)
        | Except.error _ => some (req, st, Response.network_error)
      else some (req, st, Response.network_error))
    else if url.scheme = "file" then
      (if req.method = Method.get then
        match o.filePath url with
        | Except.ok file_path =>
          (match o.fileOpenRead file_path with
           | some bytes =>
             let mime := o.guessMimeType file_path
             let response := Response.new
             let response := { response with core := { response.core with
                 body := ResponseBody.done bytes
                 headers := response.core.headers.set (Header.contentType mime) } }
             some (req, st, response)
           | none => some (req, st, Response.network_error))
        | Except.error _ => some (req, st, Response.network_error)
      else some (req, st, Response.network_error))
    else if url.scheme = "blob" ∨ url.scheme = "ftp" then
      -- `panic!("Unimplemented scheme for Fetch")` (line 347)
      none
    else some (req, st, Response.network_error)
  | Nat.succ f, FetchCall.httpCall req st cors_flag cors_preflight_flag authentication_fetch_flag =>
    -- Step 1: response starts None.  Steps 2-3: the service-worker hook is a
    -- TODO in the source, so no service-worker response ever exists and the
    -- validation block of Step 3 is dead code.
    -- Step 4, Substep 1
    let step4sub1 : Option (St × Bool) :=
      if cors_preflight_flag then
        let origin := req.origin
        let url := req.current_url
        let credentials := req.credentials_mode = CredentialsMode.credentialsInclude
        let details : CacheRequestDetails :=
          { origin := origin, destination := url, credentials := credentials }
        let method_cache_match := st.cache.match_method o.now details req.method
        let method_mismatch :=
          ¬method_cache_match ∧ (¬is_simple_method req.method ∨ req.use_cors_preflight)
        let header_mismatch := req.headers.any (fun view =>
          !(st.cache.match_header o.now details view.name) && !is_simple_header view)
        -- Sub-substep 1
        if method_mismatch ∨ header_mismatch then
          match cors_preflight_fetch o req st with
          | none => none
          | some pr =>
              -- Sub-substep 2
              some (pr.1, decide (pr.2.core.response_type = ResponseType.errorType))
        else some (st, false)
      else some (st, false)
    (match step4sub1 with
     | none => none
     | some out =>
       let st1 := out.1
       let preflight_failed := out.2
       if preflight_failed then some (req, st1, Response.network_error)
       else
         -- Substep 2
         let req := { req with skip_service_worker := true }
         -- Substep 3
         let credentials :=
           req.credentials_mode = CredentialsMode.credentialsInclude ∨
           (req.credentials_mode = CredentialsMode.credentialsSameOrigin ∧
            req.response_tainting = ResponseTainting.basicTainting)
         -- Substep 4
         match http_network_or_cache_fetch o req credentials authentication_fetch_flag with
         | none => none
         | some out2 =>
           let req1 := out2.1
           let fetch_result := out2.2
           -- Substep 5
           if cors_flag ∧ ¬(cors_check req1 fetch_result).isOk then
             some (req1, st1, Response.network_error)
           else
             let response := { fetch_result with return_internal := false }
             -- Step 5 (`status.unwrap()`: a missing status is a panic)
             match response.actual.status with
             | none => none
             | some status =>
               if status = 301 ∨ status = 302 ∨ status = 303 ∨ status = 307 ∨ status = 308 then
                 (match req1.redirect_mode with
                  | RedirectMode.redirectError =>
                      some (req1, st1, { Response.network_error with return_internal := true })
                  | RedirectMode.manual =>
                      some (req1, st1,
                        { (response.to_filtered ResponseType.opaqRedirect) with
                            return_internal := true })
                  | RedirectMode.follow =>
                      -- set back to default, recurse, then Step 6/7 behaviour
                      (fetch_engine o f (FetchCall.redirectCall req1 st1
                          { response with return_internal := true } cors_flag)).map
                        (fun r => (r.1, r.2.1, { r.2.2 with return_internal := true })))
               else if status = 401 then
                 -- Step 1 of the 401 arm: early `return response`
                 (if cors_flag ∨ req1.credentials_mode ≠ CredentialsMode.credentialsInclude then
                   some (req1, st1, response)
                 else
                   -- Steps 2-3: auth prompt TODO in the source; Step 4
                   fetch_engine o f (FetchCall.httpCall req1 st1 cors_flag cors_preflight_flag true))
               else if status = 407 then
                 -- proxy-auth prompt TODO in the source; Step 4
                 fetch_engine o f (FetchCall.httpCall req1 st1 cors_flag cors_preflight_flag
                   authentication_fetch_flag)
               else
                 -- Step 6 (auth entry TODO), set back to default, Step 7
                 some (req1, st1, { response with return_internal := true }))
  | Nat.succ f, FetchCall.redirectCall req st response cors_flag =>
    -- Step 1: `assert_eq!(response.return_internal.get(), true)`
    if ¬response.return_internal then none
    else if ¬response.actual.headers.hasName "location" then
      -- Step 3 (done early in the source): surface the response
      some (req, st, response)
    else
      -- Steps 2, 4
      match response.actual.headers.getLocation with
      | none => some (req, st, Response.network_error)
      | some location =>
        -- Step 5 (`url.as_ref().unwrap()`: a missing response URL is a panic)
        match response.actual.url with
        | none => none
        | some response_url =>
          -- Step 6
          match o.joinUrl response_url location with
          | Except.error _ => some (req, st, Response.network_error)
          | Except.ok location_url =>
            -- Step 7
            if req.redirect_count ≥ 20 then some (req, st, Response.network_error)
            else
              -- Steps 8, 9
              let req := { req with redirect_count := req.redirect_count + 1,
                                    same_origin_data := false }
              let same_origin : Bool :=
                match req.origin with
                | RequestOrigin.origin origin => decide (origin = req.current_url.origin)
                | _ => false
              let has_creds := has_credentials location_url
              -- Step 10
              if req.mode = RequestMode.corsMode ∧ ¬same_origin ∧ has_creds then
                some (req, st, Response.network_error)
              -- Step 11
              else if cors_flag ∧ has_creds then
                some (req, st, Response.network_error)
              else
                -- Step 12
                let reqst : Request × St :=
                  if cors_flag ∧ ¬same_origin then
                    ({ req with origin := RequestOrigin.origin (UrlOrigin.opaqOrigin st.nextOpaque) },
                     { st with nextOpaque := st.nextOpaque + 1 })
                  else (req, st)
                let req := reqst.1
                let st := reqst.2
                -- Step 13
                match response.actual.status with
                | none => none
                | some status_code =>
                  let req :=
                    if ((status_code = 301 ∨ status_code = 302) ∧ req.method = Method.post) ∨
                       status_code = 303 then
                      { req with method := Method.get, body := none }
                    else req
                  -- Step 14
                  let req := { req with url_list_rest := req.url_list_rest ++ [location_url] }
                  -- Step 15
                  fetch_engine o f (FetchCall.mainCall req st cors_flag true)

/-- [Main fetch](line 115 of the source). -/
def main_fetch (o : Oracles) (fuel : Nat) (request : Request) (st : St)
    (cors_flag recursive_flag : Bool) : Option (Request × St × Response) :=
  fetch_engine o fuel (FetchCall.mainCall request st cors_flag recursive_flag)

/-- [Basic fetch](line 290 of the source). -/
def basic_fetch (o : Oracles) (fuel : Nat) (request : Request) (st : St) :
    Option (Request × St × Response) :=
  fetch_engine o fuel (FetchCall.basicCall request st)

/-- [HTTP fetch](line 355 of the source). -/
def http_fetch (o : Oracles) (fuel : Nat) (request : Request) (st : St)
    (cors_flag cors_preflight_flag authentication_fetch_flag : Bool) :
    Option (Request × St × Response) :=
  fetch_engine o fuel
    (FetchCall.httpCall request st cors_flag cors_preflight_flag authentication_fetch_flag)

/-- [HTTP redirect fetch](line 534 of the source). -/
def http_redirect_fetch (o : Oracles) (fuel : Nat) (request : Request) (st : St)
    (response : Response) (cors_flag : Bool) : Option (Request × St × Response) :=
  fetch_engine o fuel (FetchCall.redirectCall request st response cors_flag)

/- ### Derived definitions used by the statements below -/

/-- The `same_origin` test recomputed at step 9 of `http_redirect_fetch`
(lines 577-581): the request's origin is a concrete origin equal to the
current URL's origin. -/
def redirect_same_origin (req : Request) : Bool :=
  match req.origin with
  | RequestOrigin.origin origin => decide (origin = req.current_url.origin)
  | _ => false

/-- The request a pending `FetchCall` operates on. -/
def FetchCall.reqOf : FetchCall → Request
  | FetchCall.mainCall r _ _ _ => r
  | FetchCall.basicCall r _ => r
  | FetchCall.httpCall r _ _ _ _ => r
  | FetchCall.redirectCall r _ _ _ => r

/-- The response `http_network_fetch` builds when `obtain_response` fails: a
fresh response (status 200, type Default) with `termination_reason = Fatal`
and the request's url list copied on (lines 851, 892-894, 922). -/
def connect_failure_response (base : Request) : Response :=
  { core := { response_type := ResponseType.defaultType
              termination_reason := some TerminationReason.fatal
              url := none
              url_list := base.url_list
              status := some 200
              headers := ([] : List Header)
              body := ResponseBody.empty }
    internal_response := none
    return_internal := true }

/-- Substeps 5-6 of `cors_preflight_fetch` (lines 1010-1021) as one rejection
predicate: the triggering method is neither in the allowed list nor simple,
or some request header is neither in the allowed set (case-insensitively)
nor simple. -/
def preflight_reject (request : Request) (methods : List Method)
    (header_names : List String) : Bool :=
  (methods.all (fun m => m ≠ request.method) && !is_simple_method request.method) ||
  request.headers.any (fun hv =>
    !(header_names.any (fun n => n.toLower = hv.name.toLower)) && !is_simple_header hv)

/- ### Concrete fixtures for the witness theorems -/

/-- A tuple origin of `https://a.example:443`. -/
def exOriginA : UrlOrigin := UrlOrigin.tupleOrigin "https" "a.example" 443

/-- A tuple origin of `https://b.example:443`. -/
def exOriginB : UrlOrigin := UrlOrigin.tupleOrigin "https" "b.example" 443

/-- `https://a.example/x`. -/
def exUrlA : Url :=
  { scheme := "https", username := "", password := none,
    host := "a.example", port := 443, path := "x" }

/-- An empty CORS cache and a fresh opaque-origin counter. -/
def exSt : St := { cache := CORSCache.new, nextOpaque := 0 }

/-- Oracles whose every external call fails. -/
def oracle_err : Oracles :=
  { connector := fun _ _ _ => Except.error ()
    dataDecode := fun _ => Except.error ()
    filePath := fun _ => Except.error ()
    fileOpenRead := fun _ => none
    guessMimeType := fun _ => { top := "text", sub := "plain", params := [] }
    joinUrl := fun _ _ => Except.error ()
    now := 0 }

/-- C1 fixture: a credentials-Include request of origin `https://a.example:443`
with no headers. -/
def c1_request : Request :=
  { Request.new exUrlA (some (RequestOrigin.origin exOriginA)) false with
      credentials_mode := CredentialsMode.credentialsInclude
      referer := Referer.noReferer }

/-- C1 fixture: the same request carrying `Access-Control-Allow-Credentials`
among its own (request!) headers. -/
def c1_request_acac : Request := { c1_request with headers := [Header.allowCredentials] }

/-- C1 fixture: a response with a matching `Access-Control-Allow-Origin` and
`Access-Control-Allow-Credentials` present. -/
def c1_response_with : Response :=
  { Response.new with core := { Response.new.core with
      headers := [Header.allowOrigin (AllowOrigin.value "https://a.example:443"),
                  Header.allowCredentials] } }

/-- C1 fixture: a response with a matching `Access-Control-Allow-Origin` and
no `Access-Control-Allow-Credentials`. -/
def c1_response_without : Response :=
  { Response.new with core := { Response.new.core with
      headers := [Header.allowOrigin (AllowOrigin.value "https://a.example:443")] } }

/-- C2 fixture: a plain GET request for `https://a.example/x`. -/
def c2_req : Request :=
  { Request.new exUrlA (some (RequestOrigin.origin exOriginA)) false with
      referer := Referer.noReferer }

/-- Redirect target without credentials. -/
def redirect_loc_url : Url :=
  { scheme := "https", username := "", password := none,
    host := "a.example", port := 443, path := "next" }

/-- Redirect target whose URL carries a username. -/
def redirect_cred_url : Url :=
  { scheme := "https", username := "user", password := none,
    host := "a.example", port := 443, path := "next" }

/-- Oracles whose URL join yields `redirect_loc_url`. -/
def oracle_join : Oracles :=
  { oracle_err with joinUrl := fun _ _ => Except.ok redirect_loc_url }

/-- Oracles whose URL join yields `redirect_cred_url`. -/
def oracle_join_cred : Oracles :=
  { oracle_err with joinUrl := fun _ _ => Except.ok redirect_cred_url }

/-- A 302 response carrying a `Location` header. -/
def redirect_response : Response :=
  { core := { response_type := ResponseType.defaultType
              termination_reason := none
              url := some exUrlA
              url_list := [exUrlA]
              status := some 302
              headers := [Header.location "/next"]
              body := ResponseBody.empty }
    internal_response := none
    return_internal := true }

/-- C3 fixture: a request that has already followed 20 redirects. -/
def c3_req20 : Request :=
  { Request.new exUrlA (some (RequestOrigin.origin exOriginA)) false with
      redirect_count := 20
      referer := Referer.noReferer }

/-- C4 fixture: a POST request with a body. -/
def c4_req : Request :=
  { Request.new exUrlA (some (RequestOrigin.origin exOriginA)) false with
      method := Method.post
      body := some [1, 2]
      referer := Referer.noReferer }

/-- C5 fixture: a plain request redirected under `cors_flag`. -/
def c5_req : Request :=
  { Request.new exUrlA (some (RequestOrigin.origin exOriginA)) false with
      referer := Referer.noReferer }

/-- A wire response with status 204 and a non-empty body. -/
def wire_204 : WireResponse :=
  { url := exUrlA, status := 204, headers := ([] : List Header), bodyBytes := [7, 7] }

/-- Oracles whose connector always answers 204 with a body. -/
def oracle_204 : Oracles :=
  { oracle_err with connector := fun _ _ _ => Except.ok wire_204 }

/-- C6 fixture: a same-origin GET request for `https://a.example/x`. -/
def c6_req : Request :=
  { Request.new exUrlA (some (RequestOrigin.origin exUrlA.origin)) false with
      referer := Referer.noReferer }

/-- C6 fixture: a plain 200 GET response with a produced body — neither a
null-body status nor a HEAD/CONNECT request, so step 14 must leave it
alone. -/
def c6_plain_response : Response :=
  { core := { response_type := ResponseType.basicType
              termination_reason := none
              url := some exUrlA
              url_list := [exUrlA]
              status := some 200
              headers := ([] : List Header)
              body := ResponseBody.done [7, 7] }
    internal_response := none
    return_internal := true }

/-- C7 fixture: a cross-origin DELETE request from `https://b.example:443`. -/
def c7_req : Request :=
  { Request.new exUrlA (some (RequestOrigin.origin exOriginB)) false with
      method := Method.delete
      referer := Referer.noReferer }

/-- C7 fixture: the preflight response — 204, matching allow-origin, allowing
only POST and no headers. -/
def c7_response : Response :=
  { core := { response_type := ResponseType.defaultType
              termination_reason := none
              url := some exUrlA
              url_list := [exUrlA]
              status := some 204
              headers := [Header.allowOrigin (AllowOrigin.value "https://b.example:443"),
                          Header.allowMethods [Method.post],
                          Header.allowHeaders ([] : List String)]
              body := ResponseBody.done ([] : List Nat) }
    internal_response := none
    return_internal := true }

/-- The wire form of `c7_response`. -/
def wire_pre : WireResponse :=
  { url := exUrlA
    status := 204
    headers := [Header.allowOrigin (AllowOrigin.value "https://b.example:443"),
                Header.allowMethods [Method.post],
                Header.allowHeaders ([] : List String)]
    bodyBytes := ([] : List Nat) }

/-- Oracles whose connector answers the C7 preflight. -/
def oracle_pre : Oracles :=
  { oracle_err with connector := fun _ _ _ => Except.ok wire_pre }

/-- C8 fixture: a cross-origin DELETE request with `use_cors_preflight`. -/
def c8_req : Request :=
  { Request.new exUrlA (some (RequestOrigin.origin exOriginB)) false with
      method := Method.delete
      use_cors_preflight := true
      referer := Referer.noReferer }

/-- C8 fixture: a 204 preflight response with a matching allow-origin and no
`Access-Control-Allow-Methods` header at all. -/
def c8_response : Response :=
  { core := { response_type := ResponseType.defaultType
              termination_reason := none
              url := some exUrlA
              url_list := [exUrlA]
              status := some 204
              headers := [Header.allowOrigin (AllowOrigin.value "https://b.example:443")]
              body := ResponseBody.done ([] : List Nat) }
    internal_response := none
    return_internal := true }

/-- The wire form of `c8_response`. -/
def wire_pre8 : WireResponse :=
  { url := exUrlA
    status := 204
    headers := [Header.allowOrigin (AllowOrigin.value "https://b.example:443")]
    bodyBytes := ([] : List Nat) }

/-- Oracles whose connector answers the C8 preflight. -/
def oracle_pre8 : Oracles :=
  { oracle_err with connector := fun _ _ _ => Except.ok wire_pre8 }

/-- C9 fixture: a request with `cache_mode = Reload` and no headers. -/
def c9_request : Request :=
  { Request.new exUrlA (some (RequestOrigin.origin exOriginA)) false with
      cache_mode := CacheMode.reload
      referer := Referer.noReferer }

/-- C10 fixture: a blob URL. -/
def c10_blob_url : Url :=
  { scheme := "blob", username := "", password := none, host := "h", port := 1, path := "p" }

/-- C10 fixture: an ftp URL. -/
def c10_ftp_url : Url :=
  { scheme := "ftp", username := "", password := none, host := "h", port := 21, path := "p" }

/-- C10 fixture: a cross-origin request for the blob URL (mode defaults to
no-CORS, so `main_fetch` routes it to `basic_fetch`). -/
def c10_blob_request : Request :=
  { Request.new c10_blob_url (some (RequestOrigin.origin exOriginA)) false with
      referer := Referer.noReferer }

/-- C10 fixture: the same request for the ftp URL. -/
def c10_ftp_request : Request :=
  { Request.new c10_ftp_url (some (RequestOrigin.origin exOriginA)) false with
      referer := Referer.noReferer }

/- ### Header-map lemmas -/

lemma find?_filter_eq (l : List Header) (p q : Header → Bool)
    (himp : ∀ x, p x = true → q x = true) :
    (l.filter q).find? p = l.find? p := by
  induction l with
  | nil => rfl
  | cons a t ih =>
    by_cases hpa : p a = true
    · have hqa := himp a hpa
      simp [List.filter_cons, hqa, List.find?_cons, hpa]
    · by_cases hqa : q a = true <;>
        simp [List.filter_cons, hqa, List.find?_cons, hpa, ih]

lemma any_filter_eq (l : List Header) (p q : Header → Bool)
    (himp : ∀ x, p x = true → q x = true) :
    (l.filter q).any p = l.any p := by
  induction l with
  | nil => rfl
  | cons a t ih =>
    by_cases hpa : p a = true
    · have hqa := himp a hpa
      simp [List.filter_cons, hqa, hpa, ih]
    · by_cases hqa : q a = true <;> simp [List.filter_cons, hqa, hpa, ih]

lemma findName_set_self (hs : Headers) (h : Header) :
    (hs.set h).findName h.name = some h := by
  unfold Headers.set Headers.findName
  rw [List.find?_append]
  have h1 : (List.filter (fun h' => decide (h'.name ≠ h.name)) hs).find?
      (fun x => decide (x.name = h.name)) = none := by
    rw [List.find?_eq_none]
    intro x hx
    have hx2 := List.of_mem_filter hx
    simp only [decide_eq_true_eq] at hx2 ⊢
    exact hx2
  rw [h1]
  simp only [List.find?, decide_True, Option.none_or]

lemma findName_set_ne (hs : Headers) (h : Header) (n : String) (hne : n ≠ h.name) :
    (hs.set h).findName n = hs.findName n := by
  unfold Headers.set Headers.findName
  rw [List.find?_append]
  have h1 : [h].find? (fun x => decide (x.name = n)) = none := by
    simp only [List.find?]
    rw [decide_eq_false (fun hh => hne hh.symm)]
  rw [h1]
  rw [find?_filter_eq]
  · cases hs.find? (fun x => decide (x.name = n)) <;> rfl
  · intro x hx
    simp only [decide_eq_true_eq] at hx
    rw [decide_eq_true_eq, hx]
    exact hne

lemma hasName_set_ne (hs : Headers) (h : Header) (n : String) (hne : n ≠ h.name) :
    (hs.set h).hasName n = hs.hasName n := by
  unfold Headers.set Headers.hasName
  rw [List.any_append]
  have h1 : [h].any (fun x => decide (x.name = n)) = false := by
    simp only [List.any_cons, List.any_nil, Bool.or_false]
    exact decide_eq_false (fun hh => hne hh.symm)
  rw [h1, any_filter_eq]
  · simp
  · intro x hx
    simp only [decide_eq_true_eq] at hx
    rw [decide_eq_true_eq, hx]
    exact hne

lemma hasName_of_findName {hs : Headers} {n : String} {h : Header}
    (hfind : hs.findName n = some h) : hs.hasName n = true := by
  unfold Headers.findName at hfind
  unfold Headers.hasName
  rw [List.any_eq_true]
  refine ⟨h, List.mem_of_find?_eq_some hfind, ?_⟩
  have h2 := List.find?_some hfind
  simpa using h2

lemma hasName_cc_set_pragma (hs : Headers) :
    (hs.set Header.pragmaHeader).hasName "cache-control" = hs.hasName "cache-control" :=
  hasName_set_ne hs Header.pragmaHeader "cache-control"
    (show ("cache-control" : String) ≠ "pragma" by decide)

lemma findName_pragma_set_cc (hs : Headers) (ds : List CacheDirective) :
    (hs.set (Header.cacheControl ds)).findName "pragma" = hs.findName "pragma" :=
  findName_set_ne hs (Header.cacheControl ds) "pragma"
    (show ("pragma" : String) ≠ "cache-control" by decide)

lemma findName_pragma_self (hs : Headers) :
    (hs.set Header.pragmaHeader).findName "pragma" = some Header.pragmaHeader :=
  findName_set_self hs Header.pragmaHeader

lemma findName_cc_self (hs : Headers) (ds : List CacheDirective) :
    (hs.set (Header.cacheControl ds)).findName "cache-control" =
      some (Header.cacheControl ds) :=
  findName_set_self hs (Header.cacheControl ds)

lemma getLocation_eq_some {hs : Headers} {v : String} (h : hs.getLocation = some v) :
    hs.findName "location" = some (Header.location v) := by
  unfold Headers.getLocation at h
  split at h
  · next v' heq =>
      cases h
      exact heq
  · cases h

/- ### Field-preservation lemmas for the header-synthesis steps -/

lemma content_length_step_count (r : Request) :
    (content_length_step r).redirect_count = r.redirect_count := by
  simp only [content_length_step]
  repeat' split
  all_goals rfl

lemma referer_step_count (r : Request) :
    (referer_step r).redirect_count = r.redirect_count := by
  simp only [referer_step]
  repeat' split
  all_goals rfl

lemma user_agent_step_count (r : Request) :
    (user_agent_step r).redirect_count = r.redirect_count := by
  simp only [user_agent_step]
  repeat' split
  all_goals rfl

lemma cache_mode_normalize_count (r : Request) :
    (cache_mode_normalize r).redirect_count = r.redirect_count := by
  simp only [cache_mode_normalize]
  repeat' split
  all_goals rfl

lemma authorization_step_count (r : Request) (a : Bool) :
    (authorization_step r a).redirect_count = r.redirect_count := by
  simp only [authorization_step]
  repeat' split
  all_goals rfl

lemma content_length_step_referer (r : Request) :
    (content_length_step r).referer = r.referer := by
  simp only [content_length_step]
  repeat' split
  all_goals rfl

lemma hnocf_count (o : Oracles) (r : Request) (c a : Bool) (out : Request × Response)
    (h : http_network_or_cache_fetch o r c a = some out) :
    out.1.redirect_count = r.redirect_count := by
  simp only [http_network_or_cache_fetch] at h
  split at h
  · cases h
  · cases h
    split
    · split
      · rw [authorization_step_count, cache_mode_normalize_count, user_agent_step_count,
          referer_step_count, content_length_step_count]
      · rw [cache_mode_normalize_count, user_agent_step_count,
          referer_step_count, content_length_step_count]
    · rfl

/- ### The redirect-count bound, proved over the whole engine -/

lemma fetch_engine_count_le (o : Oracles) (fuel : Nat) :
    ∀ (call : FetchCall) (out : Request × St × Response),
      call.reqOf.redirect_count ≤ 20 →
      fetch_engine o fuel call = some out →
      out.1.redirect_count ≤ 20 := by
  induction fuel with
  | zero =>
    intro call out hle h
    simp [fetch_engine] at h
  | succ f ih =>
    intro call out hle h
    cases call with
    | mainCall req st cf rf =>
      simp only [FetchCall.reqOf] at hle
      simp only [fetch_engine] at h
      split at h
      · cases h
      · next out' heq =>
        split at h <;> cases h
        all_goals {
          split at heq
          · cases heq
            simpa using hle
          · split at heq
            · have h2 := ih _ _ (by simpa [FetchCall.reqOf] using hle) heq
              simpa using h2
            · split at heq
              · cases heq
                simpa using hle
              · split at heq
                · have h2 := ih _ _ (by simpa [FetchCall.reqOf] using hle) heq
                  simpa using h2
                · split at heq
                  · cases heq
                    simpa using hle
                  · split at heq
                    · have h2 := ih _ _ (by simpa [FetchCall.reqOf] using hle) heq
                      simpa using h2
                    · have h2 := ih _ _ (by simpa [FetchCall.reqOf] using hle) heq
                      simpa using h2
        }
    | basicCall req st =>
      simp only [FetchCall.reqOf] at hle
      simp only [fetch_engine] at h
      repeat' split at h
      all_goals first
        | (cases h; simpa using hle)
        | (have h2 := ih _ _ (by simpa [FetchCall.reqOf] using hle) h; simpa using h2)
        | cases h
    | httpCall req st cf pf af =>
      simp only [FetchCall.reqOf] at hle
      simp only [fetch_engine] at h
      split at h
      · cases h
      · next out0 heq0 =>
        split at h
        · cases h
          simpa using hle
        · split at h
          · cases h
          · next out2 heq2 =>
            have hcnt : out2.1.redirect_count = req.redirect_count := by
              simpa using hnocf_count o _ _ _ _ heq2
            split at h
            · cases h
              simp only []
              omega
            · split at h
              · cases h
              · split at h
                · -- a redirect status: dispatch on the redirect mode
                  split at h
                  · cases h
                    simp only []
                    omega
                  · cases h
                    simp only []
                    omega
                  · rw [Option.map_eq_some'] at h
                    obtain ⟨r', heq', hout⟩ := h
                    have h2 := ih _ _ (by simp only [FetchCall.reqOf]; omega) heq'
                    rw [← hout]
                    simpa using h2
                · -- not a redirect status
                  split at h
                  · -- 401
                    split at h
                    · cases h
                      simp only []
                      omega
                    · have h2 := ih _ _ (by simp only [FetchCall.reqOf]; omega) h
                      simpa using h2
                  · split at h
                    · -- 407
                      have h2 := ih _ _ (by simp only [FetchCall.reqOf]; omega) h
                      simpa using h2
                    · cases h
                      simp only []
                      omega
    | redirectCall req st response cf =>
      simp only [FetchCall.reqOf] at hle
      simp only [fetch_engine] at h
      split at h
      · cases h
      · split at h
        · cases h
          simpa using hle
        · split at h
          · cases h
            simpa using hle
          · split at h
            · cases h
            · split at h
              · cases h
                simpa using hle
              · split at h
                · cases h
                  simpa using hle
                · next hlt =>
                  split at h
                  · cases h
                    simp
                    omega
                  · split at h
                    · cases h
                      simp
                      omega
                    · split at h
                      · cases h
                      · split at h
                        all_goals {
                          have h2 := ih _ _
                            (by simp only [FetchCall.reqOf];
                                (try simp [apply_ite Request.redirect_count]); omega) h
                          simpa using h2
                        }

/- ### Connector-failure lemmas -/

lemma http_network_fetch_error (o : Oracles) (request http_request : Request) (c : Bool)
    (hconn : o.connector request.current_url request.method request.headers =
             Except.error ()) :
    http_network_fetch o request http_request c = connect_failure_response request := by
  simp [http_network_fetch, hconn, connect_failure_response, Response.new]

lemma hnocf_connector_error (o : Oracles) (r : Request) (c a : Bool)
    (hconn : ∀ u m hs, o.connector u m hs = Except.error ())
    (href : r.referer ≠ Referer.refererClient) :
    ∃ base, http_network_or_cache_fetch o r c a =
      some (base, connect_failure_response base) := by
  simp only [http_network_or_cache_fetch]
  rw [content_length_step_referer]
  rw [if_neg href]
  exact ⟨_, by rw [http_network_fetch_error o _ _ _ (hconn _ _ _)]⟩

lemma preflight_request_referer (r : Request) :
    (preflight_request r).referer = r.referer := rfl

lemma cors_check_no_allow_origin (req : Request) (resp : Response)
    (h : resp.core.headers = ([] : List Header)) :
    (cors_check req resp).isOk = false := by
  simp [cors_check, h, Headers.getAllowOrigin, Headers.findName, Except.isOk, Except.toBool]

lemma cors_preflight_connector_error (o : Oracles) (req : Request) (st : St)
    (hconn : ∀ u m hs, o.connector u m hs = Except.error ())
    (href : req.referer ≠ Referer.refererClient) :
    cors_preflight_fetch o req st = some (st, Response.network_error) := by
  obtain ⟨base, hb⟩ := hnocf_connector_error o (preflight_request req) false false hconn
    (by rw [preflight_request_referer]; exact href)
  simp only [cors_preflight_fetch, hb]
  rw [if_neg]
  intro hcon
  have h1 := hcon.1
  rw [cors_check_no_allow_origin req _ rfl] at h1
  cases h1

/- ### Body-slot lemma for step 14 of `main_fetch` -/

lemma set_actual_body_actual (r : Response) (b : ResponseBody) :
    (r.set_actual_body b).actual.body = b := by
  unfold Response.set_actual_body Response.actual
  by_cases hc : r.return_internal = true ∧ r.internal_response.isSome = true
  · rw [if_pos hc]
    obtain ⟨c, hcint⟩ := Option.isSome_iff_exists.mp hc.2
    simp [hcint, hc.1]
  · rw [if_neg hc, if_neg (by simpa using hc)]

/- ### The claims -/

/-- C1: the claim says `cors_check` under `credentials_mode = Include` requires
the RESPONSE to carry `Access-Control-Allow-Credentials`.  The source instead
reads that header from the REQUEST's headers (line 1087).  Evaluating the
code shows both violation directions: with a matching allow-origin, a
response that does carry the header is rejected when the request does not
(first conjunct), and a response that lacks the header is accepted as soon
as the request carries it (second conjunct) — so per the claim the check
succeeds without the response header and fails with it. -/
theorem C1_cors_check_reads_request_credentials :
    cors_check c1_request c1_response_with = Except.error () ∧
    cors_check c1_request_acac c1_response_without = Except.ok () := by
  constructor <;> rfl

/-- C2: when the connector fails (`obtain_response` returns `Err`),
`http_fetch` still returns a response — no panic, modelled by the result
being `some` — and that response is either the network-error sentinel (the
CORS path) or carries `termination_reason = Fatal` (the plain path).  The
`Referer::Client` hypothesis excludes requests the spec itself calls invalid
at fetch time (§3, §4.3: "Client is a programmer error"). -/
theorem C2_connector_failure_returns_fatal_response (o : Oracles) (f : Nat)
    (req : Request) (st : St)
    (cors_flag cors_preflight_flag authentication_fetch_flag : Bool)
    (hconn : ∀ u m hs, o.connector u m hs = Except.error ())
    (href : req.referer ≠ Referer.refererClient) :
    ∃ out, http_fetch o (f + 1) req st
        cors_flag cors_preflight_flag authentication_fetch_flag = some out ∧
      (out.2.2.is_network_error = true ∨
       out.2.2.core.termination_reason = some TerminationReason.fatal) := by
  obtain ⟨base, hb⟩ := hnocf_connector_error o { req with skip_service_worker := true }
    (req.credentials_mode = CredentialsMode.credentialsInclude ∨
     (req.credentials_mode = CredentialsMode.credentialsSameOrigin ∧
      req.response_tainting = ResponseTainting.basicTainting))
    authentication_fetch_flag hconn href
  simp only [http_fetch, fetch_engine]
  by_cases hpf : cors_preflight_flag = true
  · simp only [hpf, if_true, ite_true]
    by_cases hmm : (¬st.cache.match_method o.now
        { origin := req.origin, destination := req.current_url,
          credentials := req.credentials_mode = CredentialsMode.credentialsInclude }
        req.method ∧ (¬is_simple_method req.method ∨ req.use_cors_preflight)) ∨
        req.headers.any (fun view =>
          !(st.cache.match_header o.now
            { origin := req.origin, destination := req.current_url,
              credentials := req.credentials_mode = CredentialsMode.credentialsInclude }
            view.name) && !is_simple_header view) = true
    · rw [if_pos hmm, cors_preflight_connector_error o req st hconn href]
      exact ⟨(req, st, Response.network_error), rfl, Or.inl rfl⟩
    · rw [if_neg hmm]
      simp only [hb]
      by_cases hcf : cors_flag = true ∧
          ¬(cors_check base (connect_failure_response base)).isOk = true
      · rw [if_pos hcf]
        exact ⟨_, rfl, Or.inl rfl⟩
      · rw [if_neg hcf]
        refine ⟨_, rfl, Or.inr ?_⟩
        rfl
  · simp only [hpf]
    simp only [Bool.false_eq_true, if_false, ite_false, hb]
    by_cases hcf : cors_flag = true ∧
        ¬(cors_check base (connect_failure_response base)).isOk = true
    · rw [if_pos hcf]
      exact ⟨_, rfl, Or.inl rfl⟩
    · rw [if_neg hcf]
      refine ⟨_, rfl, Or.inr ?_⟩
      rfl

/-- C2 witness: with every connector call failing, `http_fetch` on a concrete
GET request returns a response marked `termination_reason = Fatal` (or a
network error), with no panic. -/
theorem C2_connector_failure_witness :
    (∀ u m hs, oracle_err.connector u m hs = Except.error ()) ∧
    (∃ out, http_fetch oracle_err 1 c2_req exSt false false false = some out ∧
      (out.2.2.is_network_error = true ∨
       out.2.2.core.termination_reason = some TerminationReason.fatal)) :=
  ⟨fun _ _ _ => rfl,
   C2_connector_failure_returns_fatal_response oracle_err 0 c2_req exSt false false false
     (fun _ _ _ => rfl) (by decide)⟩

/-- C3: in `http_redirect_fetch`, once the `Location` header is present,
parses and joins, (first conjunct) a redirect count already ≥ 20 yields the
network error with the request returned untouched — before the URL is
appended and without entering `main_fetch`; (second conjunct) a count < 20
is incremented by exactly one, and either `main_fetch` is re-entered with
the new URL appended or the credentials check fails with the count already
incremented; (third conjunct) consequently `redirect_count` never exceeds
20 across any run of `http_redirect_fetch`: the 20th redirect (count 19)
proceeds, the 21st (count 20) fails. -/
theorem C3_redirect_count_limit (o : Oracles) (f : Nat) (req : Request) (st : St)
    (response : Response) (cors_flag : Bool) (loc : String)
    (response_url location_url : Url) (status_code : Nat)
    (h_ri : response.return_internal = true)
    (h_loc : response.actual.headers.getLocation = some loc)
    (h_url : response.actual.url = some response_url)
    (h_join : o.joinUrl response_url loc = Except.ok location_url)
    (h_status : response.actual.status = some status_code) :
    (req.redirect_count ≥ 20 →
       http_redirect_fetch o (f + 1) req st response cors_flag =
         some (req, st, Response.network_error))
  ∧ (req.redirect_count < 20 →
       (∃ req2 st2, http_redirect_fetch o (f + 1) req st response cors_flag =
            main_fetch o f req2 st2 cors_flag true ∧
          req2.redirect_count = req.redirect_count + 1 ∧
          req2.url_list = req.url_list ++ [location_url]) ∨
       http_redirect_fetch o (f + 1) req st response cors_flag =
         some ({ req with redirect_count := req.redirect_count + 1,
                          same_origin_data := false },
               st, Response.network_error))
  ∧ (∀ (fuel2 : Nat) (req3 : Request) (st3 : St) (resp3 : Response) (cf3 : Bool)
        (out : Request × St × Response),
        req3.redirect_count ≤ 20 →
        http_redirect_fetch o fuel2 req3 st3 resp3 cf3 = some out →
        out.1.redirect_count ≤ 20) := by
  have h_has : response.actual.headers.hasName "location" = true :=
    hasName_of_findName (getLocation_eq_some h_loc)
  refine ⟨?_, ?_, ?_⟩
  · intro hge
    simp only [http_redirect_fetch, fetch_engine, h_ri, h_has, h_loc, h_url, h_join,
      Bool.not_eq_true, Bool.true_eq_false, if_false, not_true, ite_false, ite_true]
    rw [if_pos hge]
  · intro hlt
    simp only [http_redirect_fetch, fetch_engine, h_ri, h_has, h_loc, h_url, h_join,
      h_status, Bool.not_eq_true, Bool.true_eq_false, if_false, Nat.not_le_of_lt hlt,
      Request.current_url, not_true, ite_false, ite_true]
    by_cases c10 : req.mode = RequestMode.corsMode ∧
        (match req.origin with
         | RequestOrigin.origin origin =>
             decide (origin = (req.url_list_rest.getLastD req.url).origin)
         | _ => false) = false ∧ has_credentials location_url = true
    · rw [if_pos c10]
      exact Or.inr rfl
    · rw [if_neg c10]
      by_cases c11 : cors_flag = true ∧ has_credentials location_url = true
      · rw [if_pos c11]
        exact Or.inr rfl
      · rw [if_neg c11]
        refine Or.inl ?_
        by_cases c12 : cors_flag = true ∧
            (match req.origin with
             | RequestOrigin.origin origin =>
                 decide (origin = (req.url_list_rest.getLastD req.url).origin)
             | _ => false) = false
        · rw [if_pos c12]
          by_cases c13 : ((status_code = 301 ∨ status_code = 302) ∧
              req.method = Method.post) ∨ status_code = 303
          · rw [if_pos c13]
            refine ⟨_, _, rfl, by simp, by simp [Request.url_list]⟩
          · rw [if_neg c13]
            refine ⟨_, _, rfl, by simp, by simp [Request.url_list]⟩
        · rw [if_neg c12]
          by_cases c13 : ((status_code = 301 ∨ status_code = 302) ∧
              req.method = Method.post) ∨ status_code = 303
          · rw [if_pos c13]
            refine ⟨_, _, rfl, by simp, by simp [Request.url_list]⟩
          · rw [if_neg c13]
            refine ⟨_, _, rfl, by simp, by simp [Request.url_list]⟩
  · intro fuel2 req3 st3 resp3 cf3 out hle h
    exact fetch_engine_count_le o fuel2 (FetchCall.redirectCall req3 st3 resp3 cf3) out
      (by simpa [FetchCall.reqOf] using hle) h

/-- C3 witness: a request that has already followed 20 redirects gets the
network error, with the request (and so its url list) unchanged. -/
theorem C3_redirect_count_limit_witness :
    http_redirect_fetch oracle_join 1 c3_req20 exSt redirect_response true =
      some (c3_req20, exSt, Response.network_error) :=
  (C3_redirect_count_limit oracle_join 0 c3_req20 exSt redirect_response true "/next"
      exUrlA redirect_loc_url 302 rfl rfl rfl rfl rfl).1 (by decide)

/-- C4: in `http_redirect_fetch`, when the redirect proceeds past the
credentials checks, the request handed to `main_fetch` has its method
rewritten to GET and its body cleared exactly when the status is 301 or 302
with a POST method, or the status is 303; for every other combination method
and body are unchanged.  The rewrite is in place before the new URL is
appended (the same request carries the extended url list). -/
theorem C4_redirect_method_rewrite (o : Oracles) (f : Nat) (req : Request) (st : St)
    (response : Response) (cors_flag : Bool) (loc : String)
    (response_url location_url : Url) (status_code : Nat)
    (h_ri : response.return_internal = true)
    (h_loc : response.actual.headers.getLocation = some loc)
    (h_url : response.actual.url = some response_url)
    (h_join : o.joinUrl response_url loc = Except.ok location_url)
    (h_status : response.actual.status = some status_code)
    (h_cnt : req.redirect_count < 20)
    (h_nc1 : ¬(req.mode = RequestMode.corsMode ∧ redirect_same_origin req = false ∧
               has_credentials location_url = true))
    (h_nc2 : ¬(cors_flag = true ∧ has_credentials location_url = true)) :
    ∃ req2 st2,
      http_redirect_fetch o (f + 1) req st response cors_flag =
        main_fetch o f req2 st2 cors_flag true
      ∧ req2.method = (if ((status_code = 301 ∨ status_code = 302) ∧
                           req.method = Method.post) ∨ status_code = 303
                       then Method.get else req.method)
      ∧ req2.body = (if ((status_code = 301 ∨ status_code = 302) ∧
                         req.method = Method.post) ∨ status_code = 303
                     then none else req.body)
      ∧ req2.url_list = req.url_list ++ [location_url]
      ∧ req2.redirect_count = req.redirect_count + 1 := by
  have h_has : response.actual.headers.hasName "location" = true :=
    hasName_of_findName (getLocation_eq_some h_loc)
  simp only [redirect_same_origin, Request.current_url] at h_nc1
  simp only [http_redirect_fetch, fetch_engine, h_ri, h_has, h_loc, h_url, h_join,
    h_status, Bool.not_eq_true, Bool.true_eq_false, if_false, Nat.not_le_of_lt h_cnt,
    Request.current_url, not_true, ite_false, ite_true]
  rw [if_neg (by simpa using h_nc1), if_neg h_nc2]
  by_cases c12 : cors_flag = true ∧
      (match req.origin with
       | RequestOrigin.origin origin =>
           decide (origin = (req.url_list_rest.getLastD req.url).origin)
       | _ => false) = false
  · rw [if_pos c12]
    by_cases c13 : ((status_code = 301 ∨ status_code = 302) ∧ req.method = Method.post) ∨
        status_code = 303
    · rw [if_pos c13]
      refine ⟨_, _, rfl, by simp [c13], by simp [c13], by simp [Request.url_list], by simp⟩
    · rw [if_neg c13]
      refine ⟨_, _, rfl, by simp [c13], by simp [c13], by simp [Request.url_list], by simp⟩
  · rw [if_neg c12]
    by_cases c13 : ((status_code = 301 ∨ status_code = 302) ∧ req.method = Method.post) ∨
        status_code = 303
    · rw [if_pos c13]
      refine ⟨_, _, rfl, by simp [c13], by simp [c13], by simp [Request.url_list], by simp⟩
    · rw [if_neg c13]
      refine ⟨_, _, rfl, by simp [c13], by simp [c13], by simp [Request.url_list], by simp⟩

/-- C4 witness: a POST request redirected by a 302 re-enters `main_fetch`
with method GET, no body, and the redirect count incremented. -/
theorem C4_redirect_method_rewrite_witness : ∃ req2 st2,
    http_redirect_fetch oracle_join 1 c4_req exSt redirect_response false =
      main_fetch oracle_join 0 req2 st2 false true ∧
    req2.method = Method.get ∧ req2.body = none ∧ req2.redirect_count = 1 := by
  obtain ⟨req2, st2, heq, hm, hb, hu, hc⟩ :=
    C4_redirect_method_rewrite oracle_join 0 c4_req exSt redirect_response false "/next"
      exUrlA redirect_loc_url 302 rfl rfl rfl rfl rfl (by decide) (by decide) (by decide)
  refine ⟨req2, st2, heq, ?_, ?_, ?_⟩
  · simpa [c4_req, Request.new] using hm
  · simpa [c4_req, Request.new] using hb
  · simpa [c4_req, Request.new] using hc

/-- C5: in `http_redirect_fetch`, after the redirect-count step, the result
is the network error whenever (the mode is CORS, the request is not
same-origin with its current URL, and the target URL carries credentials) or
(the `cors_flag` is set and the target URL carries credentials) — where
`has_credentials` is a non-empty username or any password.  The returned
request shows only the already-performed count increment and the
`same_origin_data` reset. -/
theorem C5_redirect_credentials_network_error (o : Oracles) (f : Nat) (req : Request)
    (st : St) (response : Response) (cors_flag : Bool) (loc : String)
    (response_url location_url : Url)
    (h_ri : response.return_internal = true)
    (h_loc : response.actual.headers.getLocation = some loc)
    (h_url : response.actual.url = some response_url)
    (h_join : o.joinUrl response_url loc = Except.ok location_url)
    (h_cnt : req.redirect_count < 20)
    (h_cond : (req.mode = RequestMode.corsMode ∧ redirect_same_origin req = false ∧
               has_credentials location_url = true) ∨
              (cors_flag = true ∧ has_credentials location_url = true)) :
    http_redirect_fetch o (f + 1) req st response cors_flag =
      some ({ req with redirect_count := req.redirect_count + 1,
                       same_origin_data := false },
            st, Response.network_error) := by
  have h_has : response.actual.headers.hasName "location" = true :=
    hasName_of_findName (getLocation_eq_some h_loc)
  simp only [http_redirect_fetch, fetch_engine, h_ri, h_has, h_loc, h_url, h_join,
    Bool.not_eq_true, Bool.true_eq_false, if_false, Nat.not_le_of_lt h_cnt,
    Request.current_url, not_true, ite_false, ite_true]
  simp only [redirect_same_origin, Request.current_url] at h_cond
  rcases h_cond with ⟨hm, hso, hcr⟩ | ⟨hcf, hcr⟩
  · rw [if_pos]
    exact ⟨hm, by simpa using hso, hcr⟩
  · by_cases h10 : req.mode = RequestMode.corsMode ∧
        (match req.origin with
         | RequestOrigin.origin origin =>
             decide (origin = (req.url_list_rest.getLastD req.url).origin)
         | _ => false) = false ∧ has_credentials location_url = true
    · rw [if_pos]
      constructor
      · exact h10.1
      constructor
      · have := h10.2.1
        simpa using this
      · exact h10.2.2
    · rw [if_neg, if_pos ⟨hcf, hcr⟩]
      intro hcon
      apply h10
      constructor
      · exact hcon.1
      constructor
      · have := hcon.2.1
        simpa using this
      · exact hcon.2.2

/-- C5 witness: under `cors_flag`, a redirect to a URL carrying a username is
a network error, with the count already incremented. -/
theorem C5_redirect_credentials_witness :
    http_redirect_fetch oracle_join_cred 1 c5_req exSt redirect_response true =
      some ({ c5_req with redirect_count := 1, same_origin_data := false },
            exSt, Response.network_error) :=
  C5_redirect_credentials_network_error oracle_join_cred 0 c5_req exSt redirect_response
    true "/next" exUrlA redirect_cred_url rfl rfl rfl rfl (by decide)
    (Or.inr ⟨rfl, by decide⟩)

/-- C6: step 14 of a non-recursive `main_fetch`, in both directions.  First
conjunct: when the result is not a network error and the request's final
method is HEAD or CONNECT, or the internal response's status is one of 101,
204, 205, 304, the surfaced internal response's body is Empty — regardless
of what body the wire carried (the statement quantifies over all oracles).
Second conjunct: the non-recursive result is exactly `main_fetch_nullbody`
(step 14) applied to the filtered response the recursive run produces, so
step 14 is the only place the surfaced body can change.  Third conjunct:
for all other statuses and methods — whenever the step-14 guard fails —
`main_fetch_nullbody` is the identity, so the body is left as produced. -/
theorem C6_null_body_status_empties_body (o : Oracles) (fuel : Nat) (req : Request)
    (st : St) (cors_flag : Bool) (out : Request × St × Response) :
    (main_fetch o fuel req st cors_flag false = some out →
     out.2.2.is_network_error = false →
     (is_null_body_status out.2.2.actual.status = true ∨
      out.1.method = Method.head ∨ out.1.method = Method.connect) →
     out.2.2.actual.body = ResponseBody.empty)
  ∧ (main_fetch o fuel req st cors_flag false = some out →
     ∃ inner : Request × St × Response,
       main_fetch o fuel req st cors_flag true = some inner ∧
       out = (inner.1, inner.2.1,
              main_fetch_nullbody inner.1 (main_fetch_filter inner.1 inner.2.2)))
  ∧ (∀ (request : Request) (response : Response),
       ¬(¬response.is_network_error = true ∧
         (is_null_body_status response.actual.status = true ∨
          request.method = Method.head ∨ request.method = Method.connect)) →
       main_fetch_nullbody request response = response) := by
  refine ⟨?_, ?_, ?_⟩
  · intro h1 h2 h3
    cases fuel with
    | zero => simp [main_fetch, fetch_engine] at h1
    | succ f =>
      simp only [main_fetch, fetch_engine] at h1
      split at h1
      · cases h1
      · next out' heq =>
        split at h1
        · simp at *
        · cases h1
          simp only [] at h2 h3 ⊢
          set X := main_fetch_filter out'.1 out'.2.2 with hX
          by_cases g : ¬X.is_network_error = true ∧
              (is_null_body_status X.actual.status = true ∨
               out'.1.method = Method.head ∨ out'.1.method = Method.connect)
          · simp only [main_fetch_nullbody, if_pos g] at h2 h3 ⊢
            exact set_actual_body_actual X ResponseBody.empty
          · simp only [main_fetch_nullbody, if_neg g] at h2 h3 ⊢
            exact absurd ⟨by simp [h2], h3⟩ g
  · intro h1
    cases fuel with
    | zero => simp [main_fetch, fetch_engine] at h1
    | succ f =>
      simp only [main_fetch, fetch_engine] at h1 ⊢
      split at h1
      · cases h1
      · next out' heq =>
        split at h1
        · simp at *
        · cases h1
          exact ⟨(out'.1, out'.2.1, out'.2.2), by simp, rfl⟩
  · intro request response hg
    simp only [main_fetch_nullbody, if_neg hg]

/-- C6 witness: a same-origin GET whose wire response is a 204 with two body
bytes surfaces an internal response with an Empty body; and step 14 leaves a
plain 200 GET response untouched. -/
theorem C6_null_body_witness :
    (∃ out, main_fetch oracle_204 4 c6_req exSt false false = some out ∧
       out.2.2.actual.body = ResponseBody.empty) ∧
    main_fetch_nullbody c6_req c6_plain_response = c6_plain_response := by
  constructor
  · cases h : main_fetch oracle_204 4 c6_req exSt false false with
    | none => exact absurd h (by decide)
    | some out =>
      refine ⟨out, rfl,
        (C6_null_body_status_empties_body oracle_204 4 c6_req exSt false out).1 h ?_ ?_⟩
      · have hmap : (main_fetch oracle_204 4 c6_req exSt false false).map
            (fun p => p.2.2.is_network_error) = some false := by decide
        rw [h] at hmap
        simpa using hmap
      · left
        have hmap : (main_fetch oracle_204 4 c6_req exSt false false).map
            (fun p => is_null_body_status p.2.2.actual.status) = some true := by decide
        rw [h] at hmap
        simpa using hmap
  · exact (C6_null_body_status_empties_body oracle_204 4 c6_req exSt false
      (c6_req, exSt, c6_plain_response)).2.2 c6_req c6_plain_response (by decide)

/-- C7: in `cors_preflight_fetch`, once the CORS check passes on a 2xx
preflight response and both allow-lists parse, the result is the network
error exactly when `preflight_reject` holds — the triggering method is
neither simple nor in the (implicit-add adjusted) allow-methods list, or
some non-simple request header is missing, case-insensitively, from the
allow-headers list; otherwise the preflight response is returned and the
CORS cache receives the parsed entries. -/
theorem C7_preflight_method_header_gate (o : Oracles) (request : Request) (st : St)
    (req1 : Request) (response : Response) (methods0 : List Method)
    (header_names : List String)
    (hpre : http_network_or_cache_fetch o (preflight_request request) false false =
            some (req1, response))
    (hok : (cors_check request response).isOk = true)
    (hsucc : status_is_success response.core.status = true)
    (hm : parse_allow_methods response.core.headers = some methods0)
    (hh : parse_allow_header_names response.core.headers = some header_names) :
    (preflight_reject request
        (if methods0.isEmpty ∧ request.use_cors_preflight then [request.method]
         else methods0) header_names = true →
      cors_preflight_fetch o request st = some (st, Response.network_error))
  ∧ (preflight_reject request
        (if methods0.isEmpty ∧ request.use_cors_preflight then [request.method]
         else methods0) header_names = false →
      cors_preflight_fetch o request st =
        some (preflight_cache_update o request st
                (if methods0.isEmpty ∧ request.use_cors_preflight then [request.method]
                 else methods0)
                header_names ((response.core.headers.getMaxAge).getD 0),
              response)) := by
  simp only [cors_preflight_fetch, hpre, hm, hh]
  have hcond : ((cors_check request response).isOk = true ∧
      status_is_success response.core.status = true) := ⟨hok, hsucc⟩
  rw [if_pos hcond]
  constructor
  · intro hrej
    simp only [preflight_reject, Bool.or_eq_true, Bool.and_eq_true] at hrej
    rcases hrej with ⟨hall, hns⟩ | hhc
    · rw [if_pos ⟨hall, by simpa using hns⟩]
    · by_cases hmc : (if methods0.isEmpty ∧ request.use_cors_preflight then [request.method]
          else methods0).all (fun m => m ≠ request.method) = true ∧
          ¬is_simple_method request.method = true
      · rw [if_pos hmc]
      · rw [if_neg hmc, if_pos hhc]
  · intro hrej
    simp only [preflight_reject, Bool.or_eq_false_iff, Bool.and_eq_false_iff] at hrej
    obtain ⟨hmc, hhc⟩ := hrej
    rw [if_neg, if_neg (by simp [hhc])]
    intro hcon
    rcases hmc with hmc | hmc
    · rw [hcon.1] at hmc
      cases hmc
    · apply hcon.2
      simpa using hmc

/-- C7 witness: a cross-origin DELETE whose preflight allows only POST is
rejected with the network error. -/
theorem C7_preflight_gate_witness :
    cors_preflight_fetch oracle_pre c7_req exSt = some (exSt, Response.network_error) :=
  (C7_preflight_method_header_gate oracle_pre c7_req exSt (preflight_request c7_req)
      c7_response [Method.post] ([] : List String)
      (by decide) (by decide) (by decide) (by decide) (by decide)).1 (by decide)

/-- C8: the allow-methods parse of `cors_preflight_fetch`: (first conjunct) a
header whose name is present but whose value does not parse is a network
error; (second conjunct) an entirely absent header parses as the empty list;
(third conjunct) when the parsed list is empty and `use_cors_preflight` is
set, the triggering method is implicitly allowed — the flow proceeds past
the method check and caches exactly the triggering method, whether or not
that method is simple. -/
theorem C8_preflight_parse_and_implicit_method (o : Oracles) (request : Request)
    (st : St) (req1 : Request) (response : Response)
    (hpre : http_network_or_cache_fetch o (preflight_request request) false false =
            some (req1, response))
    (hok : (cors_check request response).isOk = true)
    (hsucc : status_is_success response.core.status = true) :
    (response.core.headers.hasName "access-control-allow-methods" = true →
     response.core.headers.getAllowMethods = none →
     cors_preflight_fetch o request st = some (st, Response.network_error))
  ∧ (response.core.headers.hasName "access-control-allow-methods" = false →
     parse_allow_methods response.core.headers = some [])
  ∧ (∀ header_names : List String,
     parse_allow_methods response.core.headers = some [] →
     request.use_cors_preflight = true →
     parse_allow_header_names response.core.headers = some header_names →
     request.headers.any (fun hv =>
        !(header_names.any (fun n => n.toLower = hv.name.toLower)) &&
        !is_simple_header hv) = false →
     cors_preflight_fetch o request st =
       some (preflight_cache_update o request st [request.method] header_names
               ((response.core.headers.getMaxAge).getD 0), response)) := by
  refine ⟨?_, ?_, ?_⟩
  · intro hraw hget
    have hparse : parse_allow_methods response.core.headers = none := by
      simp [parse_allow_methods, hraw, hget]
    simp only [cors_preflight_fetch, hpre, hparse]
    have hcond : ((cors_check request response).isOk = true ∧
        status_is_success response.core.status = true) := ⟨hok, hsucc⟩
    rw [if_pos hcond]
  · intro habs
    simp [parse_allow_methods, habs]
  · intro header_names hparse hucp hh hhdr
    simp only [cors_preflight_fetch, hpre, hparse, hh]
    have hcond : ((cors_check request response).isOk = true ∧
        status_is_success response.core.status = true) := ⟨hok, hsucc⟩
    rw [if_pos hcond]
    rw [if_pos (show ([] : List Method).isEmpty = true ∧ request.use_cors_preflight = true
          from ⟨rfl, hucp⟩)]
    rw [if_neg, if_neg (by simp [hhdr])]
    intro hcon
    have h1 := hcon.1
    simp at h1

/-- C8 witness: with `Access-Control-Allow-Methods` entirely absent from the
preflight response, the parse yields the empty list, and a non-simple DELETE
with `use_cors_preflight` still succeeds — the triggering method is cached
implicitly. -/
theorem C8_preflight_parse_witness :
    parse_allow_methods c8_response.core.headers = some ([] : List Method) ∧
    cors_preflight_fetch oracle_pre8 c8_req exSt =
      some (preflight_cache_update oracle_pre8 c8_req exSt [Method.delete]
              ([] : List String) ((c8_response.core.headers.getMaxAge).getD 0),
            c8_response) := by
  have h := C8_preflight_parse_and_implicit_method oracle_pre8 c8_req exSt
    (preflight_request c8_req) c8_response (by decide) (by decide) (by decide)
  exact ⟨h.2.1 (by decide),
         h.2.2 ([] : List String) (h.2.1 (by decide)) (by decide) (by decide) (by decide)⟩

/-- C9: the cache-mode normalization of `http_network_or_cache_fetch` (steps
9-11, realised by `cache_mode_normalize`): Default with any conditional
header present becomes NoStore with the headers untouched; NoCache without
a `Cache-Control` header gains `Cache-Control: max-age=0` (and is untouched
when one is present); Reload gains `Pragma: no-cache` and
`Cache-Control: no-cache`, each only when that header is absent, and is
untouched when both are present. -/
theorem C9_cache_mode_normalization (r : Request) :
    (r.cache_mode = CacheMode.defaultMode → is_no_store_cache r.headers = true →
       cache_mode_normalize r = { r with cache_mode := CacheMode.noStore })
  ∧ (r.cache_mode = CacheMode.noCache →
       (r.headers.hasName "cache-control" = false →
          (cache_mode_normalize r).headers =
            r.headers.set (Header.cacheControl [CacheDirective.maxAge 0])) ∧
       (r.headers.hasName "cache-control" = true → cache_mode_normalize r = r))
  ∧ (r.cache_mode = CacheMode.reload →
       (r.headers.hasName "pragma" = false →
          (cache_mode_normalize r).headers.findName "pragma" = some Header.pragmaHeader)
     ∧ (r.headers.hasName "cache-control" = false →
          (cache_mode_normalize r).headers.findName "cache-control" =
            some (Header.cacheControl [CacheDirective.noCacheDirective]))
     ∧ (r.headers.hasName "pragma" = true ∧ r.headers.hasName "cache-control" = true →
          cache_mode_normalize r = r)) := by
  refine ⟨?_, ?_, ?_⟩
  · intro hc hns
    simp [cache_mode_normalize, hc, hns]
  · intro hc
    constructor
    · intro hcc
      simp [cache_mode_normalize, hc, hcc]
    · intro hcc
      simp [cache_mode_normalize, hc, hcc]
  · intro hc
    refine ⟨?_, ?_, ?_⟩
    · intro hp
      by_cases hcc : r.headers.hasName "cache-control" = true
      · simp only [cache_mode_normalize, hc, hp, Bool.false_eq_true, not_false_iff, if_true,
          hasName_cc_set_pragma, hcc, not_true, if_false]
        exact findName_pragma_self r.headers
      · simp only [Bool.not_eq_true] at hcc
        simp only [cache_mode_normalize, hc, hp, Bool.false_eq_true, not_false_iff, if_true,
          hasName_cc_set_pragma, hcc, if_true]
        rw [findName_pragma_set_cc]
        exact findName_pragma_self r.headers
    · intro hcc
      by_cases hp : r.headers.hasName "pragma" = true
      · simp only [cache_mode_normalize, hc, hp, not_true, if_false, hcc,
          Bool.false_eq_true, not_false_iff, if_true]
        exact findName_cc_self r.headers [CacheDirective.noCacheDirective]
      · simp only [Bool.not_eq_true] at hp
        simp only [cache_mode_normalize, hc, hp, Bool.false_eq_true, not_false_iff, if_true,
          hasName_cc_set_pragma, hcc, if_true]
        exact findName_cc_self (r.headers.set Header.pragmaHeader)
          [CacheDirective.noCacheDirective]
    · rintro ⟨hp, hcc⟩
      simp [cache_mode_normalize, hc, hp, hcc]

/-- C9 witness: a Reload request with no headers leaves normalization with
both `Pragma: no-cache` and `Cache-Control: no-cache` set. -/
theorem C9_cache_mode_witness :
    (cache_mode_normalize c9_request).headers.findName "pragma" =
      some Header.pragmaHeader ∧
    (cache_mode_normalize c9_request).headers.findName "cache-control" =
      some (Header.cacheControl [CacheDirective.noCacheDirective]) :=
  ⟨((C9_cache_mode_normalization c9_request).2.2 rfl).1 (by decide),
   ((C9_cache_mode_normalization c9_request).2.2 rfl).2.1 (by decide)⟩

/-- C10: for reachable requests — the current URL's scheme is blob or ftp and
`main_fetch` routes them to `basic_fetch` (here via the default no-CORS
mode) — `basic_fetch` hits `panic!("Unimplemented scheme for Fetch")`,
modelled as `none`: no Response is returned at any fuel, in particular not
the network-error sentinel other unsupported schemes get.  The statement
quantifies over all oracles: the panic needs no network activity. -/
theorem C10_basic_fetch_blob_ftp_panics :
    (∀ (o : Oracles) (f : Nat), main_fetch o (f + 2) c10_blob_request exSt false false = none) ∧
    (∀ (o : Oracles) (f : Nat), basic_fetch o (f + 1) c10_blob_request exSt = none) ∧
    (∀ (o : Oracles) (f : Nat), main_fetch o (f + 2) c10_ftp_request exSt false false = none) ∧
    (∀ (o : Oracles) (f : Nat), basic_fetch o (f + 1) c10_ftp_request exSt = none) := by
  refine ⟨fun o f => ?_, fun o f => ?_, fun o f => ?_, fun o f => ?_⟩ <;>
    simp [main_fetch, basic_fetch, fetch_engine, c10_blob_request, c10_ftp_request,
      c10_blob_url, c10_ftp_url, Request.new, Request.current_url, exOriginA]
